import Mathlib

/-!
# pulse-volume-monitor

A shallow embedding of `src/main.cpp` and the properties of it that the
specification states.

The program is glue between two C libraries (the PulseAudio client library and
libdbus).  The embedding keeps the program's own control flow and makes the
libraries explicit:

* every library call whose result the program inspects takes its result from an
  *outcome* record supplied by the environment;
* everything the program does to the outside world is appended to a list of
  `Effect`s: text written to standard output, text written to standard error,
  library calls, and messages queued on the session bus;
* pointer values that the program casts are kept as a `Ref` that records what the
  address really refers to, so that a member access through a pointer of the wrong
  class, or through a null pointer, is a `Fault` rather than a value.
-/

namespace PVM

/-! ## Observable effects -/

/-- The well-known bus name, `#define DBUS_NAME`. -/
def DBUS_NAME : String := "com.ch1p.pvm"

/-- A signal message queued on the session bus: the three strings handed to
`dbus_message_new_signal` and the arguments appended to the message. -/
structure BusSignal where
  path : String
  iface : String
  member : String
  args : List String
deriving DecidableEq

/-- Library entry points the program calls, with the arguments that matter. -/
inductive LibCall
  | pa_mainloop_new
  | pa_mainloop_get_api
  | pa_signal_init
  | pa_signal_new (sig : Nat)
  | signal_ignore (sig : Nat)
  | pa_context_new (name : String)
  | pa_context_connect
  | dbus_bus_get
  | dbus_bus_request_name (name : String)
  | pa_context_set_state_callback
  | pa_mainloop_run
  | mainloop_quit (ret : Int)
  | pa_context_get_server_info
  | pa_context_set_subscribe_callback
  | pa_context_subscribe (mask : Nat)
  | pa_context_get_sink_info_by_index (idx : Nat)
  | pa_context_get_source_info_by_index (idx : Nat)
  | pa_context_get_sink_info_by_name (name : String)
  | pa_context_get_source_info_by_name (name : String)
  | dbus_message_new_signal (path iface member : String)
  | dbus_connection_send
  | dbus_connection_flush
deriving DecidableEq

/-- One observable action of the program. -/
inductive Effect
  | out (text : String)
  | err (text : String)
  | call (c : LibCall)
  | signal (s : BusSignal)
deriving DecidableEq

/-- The bus signals among a list of effects, in order. -/
def signalsOf : List Effect → List BusSignal
  | [] => []
  | Effect.signal s :: es => s :: signalsOf es
  | _ :: es => signalsOf es

/-- The texts written to standard output among a list of effects, in order. -/
def stdoutOf : List Effect → List String
  | [] => []
  | Effect.out t :: es => t :: stdoutOf es
  | _ :: es => stdoutOf es

/-- The texts written to standard error among a list of effects, in order. -/
def stderrOf : List Effect → List String
  | [] => []
  | Effect.err t :: es => t :: stderrOf es
  | _ :: es => stderrOf es

/-- The library calls among a list of effects, in order. -/
def callsOf : List Effect → List LibCall
  | [] => []
  | Effect.call c :: es => c :: callsOf es
  | _ :: es => callsOf es

/-- Ways in which the C++ program leaves defined behaviour. -/
inductive Fault
  | nullDeref
  | badCast
  | assertFail
deriving DecidableEq

/-- A callback that leaves defined behaviour: what it had done up to that point, and
the fault. -/
structure Crash where
  effects : List Effect
  fault : Fault
deriving DecidableEq

/-- What an address stored in a pointer variable really refers to. A C-style cast
changes the static type of the pointer, not this. -/
inductive Ref
  | null
  | pulseAudio
  | mainloop
  | mainloopApi
  | context
  | signalEvent
  | connection
  | dbus
deriving DecidableEq

/-! ## class DBus -/

/-- The data member of `class DBus` that the program reads. -/
structure DBus where
  _connection : Ref
deriving DecidableEq

/-- Results of the two libdbus calls of `DBus::initialize`. An error is present
when `dbus_error_is_set` holds after the call, with its message. -/
structure DBusOutcomes where
  bus_get_conn : Bool
  bus_get_error : Option String
  request_name_error : Option String

/-- Results of the two libdbus calls of `DBus::notify` whose value is tested. -/
structure NotifyOutcomes where
  message_new : Bool
  send : Bool

/-- `DBus::DBus()`. -/
def DBus.ctor : DBus := ⟨Ref.null⟩

/-- `DBus::initialize` (lines 36-60): the return value, the object afterwards, the
effects. -/
def DBus.initialize (o : DBusOutcomes) : Bool × DBus × List Effect :=
  let conn : Ref := if o.bus_get_conn then Ref.connection else Ref.null
  let e1 : List Effect :=
    Effect.call LibCall.dbus_bus_get ::
      (match o.bus_get_error with
       | some m => [Effect.err ("DBus Connection Error (" ++ m ++ ")\n")]
       | none => [])
  if conn = Ref.null then
    (false, ⟨conn⟩, e1 ++ [Effect.err "Failed to initialize dbus connection\n"])
  else
    let e2 := e1 ++ [Effect.call (LibCall.dbus_bus_request_name DBUS_NAME)]
    match o.request_name_error with
    | some m => (false, ⟨conn⟩, e2 ++ [Effect.err ("DBus Name Error (" ++ m ++ ")\n")])
    | none => (true, ⟨conn⟩, e2)

/-- `DBus::notify` (lines 62-83): the return value and the effects. No argument is
ever appended to the message. -/
def DBus.notify (signal_name : String) (o : NotifyOutcomes) : Bool × List Effect :=
  let e1 := [Effect.call (LibCall.dbus_message_new_signal "/com/ch1p/Object" DBUS_NAME signal_name)]
  if !o.message_new then
    (false, e1 ++ [Effect.err "DBus: Message Null\n"])
  else if !o.send then
    (false, e1 ++ [Effect.call LibCall.dbus_connection_send,
                   Effect.err "DBus send: Out Of Memory!\n"])
  else
    (true, e1 ++ [Effect.call LibCall.dbus_connection_send,
                  Effect.signal ⟨"/com/ch1p/Object", DBUS_NAME, signal_name, []⟩,
                  Effect.call LibCall.dbus_connection_flush])

/-! ## struct pa_myuserdata and class PulseAudio -/

/-- The `struct pa_myuserdata` handed to every PulseAudio callback. The `dbus`
member points to the `_dbus` member of the one `PulseAudio` object. -/
structure pa_myuserdata where
  use_dbus : Bool
  mainloop_api : Ref
  dbus : Ref
deriving DecidableEq

/-- The data members of `class PulseAudio`. -/
structure PulseAudio where
  _mainloop : Ref
  _mainloop_api : Ref
  _context : Ref
  _signal : Ref
  _dbus : DBus
  _use_dbus : Bool
  _myuserdata : pa_myuserdata
deriving DecidableEq

/-- `PulseAudio::PulseAudio()`. The constructor leaves `_myuserdata` unset; it is
written by `PulseAudio::initialize` before any callback can read it. -/
def PulseAudio.ctor : PulseAudio :=
  { _mainloop := Ref.null, _mainloop_api := Ref.null, _context := Ref.null,
    _signal := Ref.null, _dbus := DBus.ctor, _use_dbus := false,
    _myuserdata := ⟨false, Ref.null, Ref.null⟩ }


/-- Outcomes of the library calls of `PulseAudio::initialize` whose result is tested:
whether `pa_mainloop_new`, `pa_signal_new` and `pa_context_new` return a non-null
pointer, the integers returned by `pa_signal_init` and `pa_context_connect`, the text
of `pa_strerror(pa_context_errno(_context))`, and the outcomes of `DBus::initialize`
(used in bus mode only). -/
structure InitOutcomes where
  mainloop_new : Bool
  signal_init : Int
  signal_new : Bool
  context_new : Bool
  context_connect : Int
  connect_error : String
  dbus : DBusOutcomes

/-- The signal number of `SIGINT`. -/
def SIGINT : Nat := 2

/-- The signal number of `SIGPIPE`. -/
def SIGPIPE : Nat := 13

/-- The tail of `PulseAudio::initialize` (lines 162-168): fill `_myuserdata`, register
the context state callback, return true. -/
def PulseAudio.initialize_finish (self : PulseAudio) (e : List Effect) :
    Bool × PulseAudio × List Effect :=
  (true,
   { self with _myuserdata := ⟨self._use_dbus, self._mainloop_api, Ref.dbus⟩ },
   e ++ [Effect.call LibCall.pa_context_set_state_callback])

/-- `PulseAudio::initialize` (lines 117-169): the return value, the object afterwards,
the effects. -/
def PulseAudio.initialize (self : PulseAudio) (use_dbus : Bool) (o : InitOutcomes) :
    Bool × PulseAudio × List Effect :=
  let e1 := [Effect.call LibCall.pa_mainloop_new]
  if !o.mainloop_new then
    (false, { self with _mainloop := Ref.null },
      e1 ++ [Effect.err "pa_mainloop_new() failed.\n"])
  else
    let s1 := { self with _mainloop := Ref.mainloop, _mainloop_api := Ref.mainloopApi }
    let e2 := e1 ++ [Effect.call LibCall.pa_mainloop_get_api, Effect.call LibCall.pa_signal_init]
    if o.signal_init ≠ 0 then
      (false, s1, e2 ++ [Effect.err "pa_signal_init() failed\n"])
    else
      let e3 := e2 ++ [Effect.call (LibCall.pa_signal_new SIGINT)]
      if !o.signal_new then
        (false, { s1 with _signal := Ref.null }, e3 ++ [Effect.err "pa_signal_new() failed\n"])
      else
        let s2 := { s1 with _signal := Ref.signalEvent }
        let e4 := e3 ++ [Effect.call (LibCall.signal_ignore SIGPIPE),
                         Effect.call (LibCall.pa_context_new "PulseAudio Test")]
        if !o.context_new then
          (false, { s2 with _context := Ref.null }, e4 ++ [Effect.err "pa_context_new() failed\n"])
        else
          let s3 := { s2 with _context := Ref.context }
          let e5 := e4 ++ [Effect.call LibCall.pa_context_connect]
          if o.context_connect < 0 then
            (false, s3,
              e5 ++ [Effect.err ("pa_context_connect() failed: " ++ o.connect_error ++ "\n")])
          else if use_dbus then
            let d := DBus.initialize o.dbus
            let s4 := { s3 with _use_dbus := true, _dbus := d.2.1 }
            if !d.1 then (false, s4, e5 ++ d.2.2)
            else PulseAudio.initialize_finish s4 (e5 ++ d.2.2)
          else
            PulseAudio.initialize_finish s3 e5

/-- `PulseAudio::quit` (lines 190-193), called through the pointer `this`. The member
`_mainloop_api` can only be read when `this` really refers to the `PulseAudio` object
`mem`; the call through it asks the main loop to stop with code `ret`. -/
def PulseAudio.quit (mem : PulseAudio) (this : Ref) (ret : Int) : Except Crash (List Effect) :=
  match this with
  | Ref.pulseAudio =>
    match mem._mainloop_api with
    | Ref.mainloopApi => Except.ok [Effect.call (LibCall.mainloop_quit ret)]
    | Ref.null => Except.error ⟨[], Fault.nullDeref⟩
    | _ => Except.error ⟨[], Fault.badCast⟩
  | Ref.null => Except.error ⟨[], Fault.nullDeref⟩
  | _ => Except.error ⟨[], Fault.badCast⟩

/-- `PulseAudio::exit_signal_callback` (lines 231-235); `quit()` defaults to code 0. -/
def PulseAudio.exit_signal_callback (mem : PulseAudio) (userdata : Ref) :
    Except Crash (List Effect) :=
  if userdata = Ref.null then Except.ok [] else PulseAudio.quit mem userdata 0

/-- The values of `pa_context_state_t`. -/
inductive pa_context_state_t
  | UNCONNECTED
  | CONNECTING
  | AUTHORIZING
  | SETTING_NAME
  | READY
  | FAILED
  | TERMINATED
deriving DecidableEq

/-- `PA_SUBSCRIPTION_MASK_SINK` (pulse/def.h). -/
def PA_SUBSCRIPTION_MASK_SINK : Nat := 0x0001

/-- `PA_SUBSCRIPTION_MASK_SOURCE` (pulse/def.h). -/
def PA_SUBSCRIPTION_MASK_SOURCE : Nat := 0x0002

/-- `PulseAudio::context_state_callback` (lines 240-276). `state` is what
`pa_context_get_state(c)` returns, `errmsg` the text of
`pa_strerror(pa_context_errno(c))`. The context pointer `c` is never null when the
library calls back, so the assertion is about `mainloop_api` alone. -/
def PulseAudio.context_state_callback (mem : PulseAudio) (state : pa_context_state_t)
    (errmsg : String) (userdata : pa_myuserdata) : Except Crash (List Effect) :=
  if userdata.mainloop_api = Ref.null then Except.error ⟨[], Fault.assertFail⟩
  else
    let pa : Ref := userdata.mainloop_api
    match state with
    | pa_context_state_t.CONNECTING => Except.ok []
    | pa_context_state_t.AUTHORIZING => Except.ok []
    | pa_context_state_t.SETTING_NAME => Except.ok []
    | pa_context_state_t.READY =>
      Except.ok [Effect.err "PulseAudio connection established.\n",
                 Effect.call LibCall.pa_context_get_server_info,
                 Effect.call LibCall.pa_context_set_subscribe_callback,
                 Effect.call (LibCall.pa_context_subscribe
                   (PA_SUBSCRIPTION_MASK_SINK ||| PA_SUBSCRIPTION_MASK_SOURCE))]
    | pa_context_state_t.TERMINATED =>
      match PulseAudio.quit mem pa 0 with
      | Except.error c => Except.error c
      | Except.ok q => Except.ok (q ++ [Effect.err "PulseAudio connection terminated.\n"])
    | _ =>
      match PulseAudio.quit mem pa 1 with
      | Except.error c =>
        Except.error ⟨Effect.err ("Connection failure: " ++ errmsg ++ "\n") :: c.effects, c.fault⟩
      | Except.ok q => Except.ok (Effect.err ("Connection failure: " ++ errmsg ++ "\n") :: q)

/-- `PA_SUBSCRIPTION_EVENT_SINK` (pulse/def.h). -/
def PA_SUBSCRIPTION_EVENT_SINK : Nat := 0x0000

/-- `PA_SUBSCRIPTION_EVENT_SOURCE` (pulse/def.h). -/
def PA_SUBSCRIPTION_EVENT_SOURCE : Nat := 0x0001

/-- `PA_SUBSCRIPTION_EVENT_FACILITY_MASK` (pulse/def.h). -/
def PA_SUBSCRIPTION_EVENT_FACILITY_MASK : Nat := 0x000F

/-- `PA_SUBSCRIPTION_EVENT_TYPE_MASK` (pulse/def.h): the new / change / remove bits. -/
def PA_SUBSCRIPTION_EVENT_TYPE_MASK : Nat := 0x0030

/-- `PulseAudio::subscribe_callback` (lines 281-307). The local `op` stays null, so the
final `if (op)` does nothing. -/
def PulseAudio.subscribe_callback (type : Nat) (idx : Nat) : List Effect :=
  let facility := type &&& PA_SUBSCRIPTION_EVENT_FACILITY_MASK
  if facility = PA_SUBSCRIPTION_EVENT_SINK then
    [Effect.call (LibCall.pa_context_get_sink_info_by_index idx)]
  else if facility = PA_SUBSCRIPTION_EVENT_SOURCE then
    [Effect.call (LibCall.pa_context_get_source_info_by_index idx)]
  else
    [Effect.out ("Unknown event " ++ toString facility ++ "\n")]

/-! ## Single-precision arithmetic and `printf("%.0f")`

The two information callbacks compute in `float`. A finite non-negative `float` is
kept as the rational number it denotes, and each operation returns the exact result
rounded to the nearest value with a 24-bit significand, ties to even (IEEE 754
binary32, default rounding mode, `FLT_EVAL_METHOD == 0`). Exponent range is not
modelled: every non-zero value that occurs for a 32-bit volume lies between `2^-16`
and `2^32`, far inside the normal range. A `float` passed to `printf` is promoted to `double` without change. -/

/-- Nearest integer, ties to the even one. -/
def rneInt (x : ℚ) : ℤ :=
  let f := ⌊x⌋
  let r := x - f
  if r < 1 / 2 then f else if 1 / 2 < r then f + 1 else if f % 2 = 0 then f else f + 1

/-- Rounding of a non-negative real to binary32: the spacing of the representable
values around `x` is `2 ^ (⌊log₂ x⌋ - 23)`. -/
def roundF32 (x : ℚ) : ℚ :=
  if x ≤ 0 then 0
  else
    let ulp : ℚ := (2 : ℚ) ^ (Int.log 2 x - 23)
    (rneInt (x / ulp) : ℚ) * ulp

/-- The conversion `(float)n` of an unsigned integer. -/
def f32_of_uint (n : Nat) : ℚ := roundF32 n

/-- The `float` division `a / b`. -/
def f32_div (a b : ℚ) : ℚ := roundF32 (a / b)

/-- The `float` multiplication `a * b`. -/
def f32_mul (a b : ℚ) : ℚ := roundF32 (a * b)

/-- The text `printf` produces for a non-negative value under `%.0f`: the exact value
rounded to an integer, ties to even, in decimal. -/
def printf_f0 (x : ℚ) : String := toString (rneInt x).toNat

/-! ## The information callbacks -/

/-- `PA_VOLUME_NORM` (pulse/volume.h). -/
def PA_VOLUME_NORM : Nat := 0x10000

/-- `PA_VOLUME_MAX` (pulse/volume.h), `UINT32_MAX / 2`. -/
def PA_VOLUME_MAX : Nat := 0x7FFFFFFF

/-- `PA_CHANNELS_MAX` (pulse/sample.h). -/
def PA_CHANNELS_MAX : Nat := 32

/-- A `pa_cvolume`: one volume per channel; `channels` is the length of the list. -/
structure pa_cvolume where
  values : List Nat

/-- The library function `pa_cvolume_avg` (pulse/volume.c): the integer mean of the
channel volumes, and `PA_VOLUME_MUTED` (0) for an invalid structure. -/
def pa_cvolume_avg (a : pa_cvolume) : Nat :=
  if 0 < a.values.length ∧ a.values.length ≤ PA_CHANNELS_MAX
      ∧ a.values.all (fun x => decide (x ≤ PA_VOLUME_MAX)) = true then
    a.values.sum / a.values.length
  else 0

/-- The fields of `pa_sink_info` that the program reads. -/
structure pa_sink_info where
  volume : pa_cvolume
  mute : Int

/-- The fields of `pa_source_info` that the program reads. -/
structure pa_source_info where
  volume : pa_cvolume
  mute : Int

/-- The fields of `pa_server_info` that the program reads. -/
structure pa_server_info where
  default_sink_name : String
  default_source_name : String

/-- The text of `volume * 100.0f` under `%.0f`, where
`float volume = (float)avg / (float)PA_VOLUME_NORM` (lines 323-324 and 342-343). -/
def percent_text (avg : Nat) : String :=
  let volume := f32_div (f32_of_uint avg) (f32_of_uint PA_VOLUME_NORM)
  printf_f0 (f32_mul volume (roundF32 100))

/-- The call `myuserdata->dbus->notify(name)` of the two callbacks below. -/
def notify_via (userdata : pa_myuserdata) (signal_name : String) (o : NotifyOutcomes) :
    Except Crash (List Effect) :=
  match userdata.dbus with
  | Ref.dbus => Except.ok (DBus.notify signal_name o).2
  | Ref.null => Except.error ⟨[], Fault.nullDeref⟩
  | _ => Except.error ⟨[], Fault.badCast⟩

/-- `PulseAudio::sink_info_callback` (lines 312-326). `i` is `none` for a null
record; `o` holds the outcomes of the libdbus calls of `notify`. -/
def PulseAudio.sink_info_callback (i : Option pa_sink_info) (userdata : pa_myuserdata)
    (o : NotifyOutcomes) : Except Crash (List Effect) :=
  match i with
  | none => Except.ok []
  | some i =>
    if userdata.use_dbus then notify_via userdata "sinkChanged" o
    else
      Except.ok [Effect.out ("[sink  ] percent volume = " ++ percent_text (pa_cvolume_avg i.volume)
        ++ "%" ++ (if i.mute ≠ 0 then " (muted)" else "") ++ "\n")]

/-- `PulseAudio::source_info_callback` (lines 331-345). -/
def PulseAudio.source_info_callback (i : Option pa_source_info) (userdata : pa_myuserdata)
    (o : NotifyOutcomes) : Except Crash (List Effect) :=
  match i with
  | none => Except.ok []
  | some i =>
    if userdata.use_dbus then notify_via userdata "sourceChanged" o
    else
      Except.ok [Effect.out ("[source] percent volume = " ++ percent_text (pa_cvolume_avg i.volume)
        ++ "%" ++ (if i.mute ≠ 0 then " (muted)" else "") ++ "\n")]

/-- `PulseAudio::server_info_callback` (lines 351-358). There is no test of `i`: the
first statement reads `i->default_sink_name`. -/
def PulseAudio.server_info_callback (i : Option pa_server_info) : Except Crash (List Effect) :=
  match i with
  | none => Except.error ⟨[], Fault.nullDeref⟩
  | some i =>
    Except.ok [Effect.out ("[info  ] default sink name = " ++ i.default_sink_name ++ "\n"),
               Effect.out ("[info  ] default source name = " ++ i.default_source_name ++ "\n"),
               Effect.call (LibCall.pa_context_get_sink_info_by_name i.default_sink_name),
               Effect.call (LibCall.pa_context_get_source_info_by_name i.default_source_name)]

/-! ## The main loop -/

/-- What the PulseAudio main loop can deliver to the program: a context state change,
a subscription event, the answer to an information request (a record or null), and
`SIGINT`. -/
inductive Event
  | context_state (state : pa_context_state_t) (errmsg : String)
  | subscription (type : Nat) (idx : Nat)
  | sink_info (i : Option pa_sink_info) (o : NotifyOutcomes)
  | source_info (i : Option pa_source_info) (o : NotifyOutcomes)
  | server_info (i : Option pa_server_info)
  | sigint

/-- The callback the library invokes for an event, with the `userdata` pointer that was
registered with it: `&_myuserdata` for the PulseAudio callbacks, `this` for the `SIGINT`
handler (`pa_signal_new(SIGINT, exit_signal_callback, this)`). -/
def PulseAudio.dispatch (mem : PulseAudio) : Event → Except Crash (List Effect)
  | Event.context_state s m => PulseAudio.context_state_callback mem s m mem._myuserdata
  | Event.subscription t idx => Except.ok (PulseAudio.subscribe_callback t idx)
  | Event.sink_info i o => PulseAudio.sink_info_callback i mem._myuserdata o
  | Event.source_info i o => PulseAudio.source_info_callback i mem._myuserdata o
  | Event.server_info i => PulseAudio.server_info_callback i
  | Event.sigint => PulseAudio.exit_signal_callback mem Ref.pulseAudio

/-- The code passed to the main loop's `quit`, if a list of effects holds such a call. -/
def quitRequest : List Effect → Option Int
  | [] => none
  | Effect.call (LibCall.mainloop_quit r) :: _ => some r
  | _ :: es => quitRequest es

/-- How `pa_mainloop_run` ends: `quit r` when the loop's `quit` was called with `r`
(the function returns a non-negative value and stores `r` through `retval`), `error`
when an iteration fails (it returns a negative value and leaves `retval` alone),
`fault` when a callback left defined behaviour (what that callback did before the
fault is kept). -/
inductive LoopEnd
  | quit (retval : Int)
  | error
  | fault (f : Fault)
deriving DecidableEq

/-- The library function `pa_mainloop_run`: deliver the events in order, each to its
callback, until one of them asks the loop to quit. A list of events that ends without
such a request stands for an iteration that fails. -/
def pa_mainloop_run (mem : PulseAudio) : List Event → List Effect × LoopEnd
  | [] => ([], LoopEnd.error)
  | e :: es =>
    match PulseAudio.dispatch mem e with
    | Except.error c => (c.effects, LoopEnd.fault c.fault)
    | Except.ok effs =>
      match quitRequest effs with
      | some r => (effs, LoopEnd.quit r)
      | none => (effs ++ (pa_mainloop_run mem es).1, (pa_mainloop_run mem es).2)

/-- How the process ends: with an exit status, or in undefined behaviour. -/
inductive Outcome
  | exit (status : Int)
  | fault (f : Fault)
deriving DecidableEq

/-- A run of (a part of) the program: its effects and how it ended. -/
structure Run where
  effects : List Effect
  outcome : Outcome
deriving DecidableEq

/-- `PulseAudio::run` (lines 175-185): `ret` starts as 1 and is returned on both
paths. -/
def PulseAudio.run (mem : PulseAudio) (events : List Event) : Run :=
  let r := pa_mainloop_run mem events
  let e := Effect.call LibCall.pa_mainloop_run :: r.1
  match r.2 with
  | LoopEnd.quit ret => ⟨e, Outcome.exit ret⟩
  | LoopEnd.error => ⟨e ++ [Effect.err "pa_mainloop_run() failed.\n"], Outcome.exit 1⟩
  | LoopEnd.fault f => ⟨e, Outcome.fault f⟩

/-! ## usage and main -/

/-- The library function `strcmp` on the characters of two C strings: zero exactly
when no position differs. The end of a string compares as the terminating zero. -/
def strcmp : List Char → List Char → Int
  | [], [] => 0
  | [], b :: _ => 0 - (b.toNat : Int)
  | a :: _, [] => (a.toNat : Int)
  | a :: as, b :: bs => if a = b then strcmp as bs else (a.toNat : Int) - (b.toNat : Int)

/-- `usage` (lines 363-371): print the two usage lines to standard error and
`exit(1)`; control never returns to the caller. -/
def usage (name : String) : Run :=
  ⟨[Effect.err ("Usage:\n" ++ name ++ " dbus\n" ++ name ++ " stdout\n")], Outcome.exit 1⟩

/-- The environment of one run of the program: the outcomes of the library calls made
during initialisation and the events the main loop delivers. -/
structure Env where
  init : InitOutcomes
  events : List Event

/-- Lines 388-395 of `main`: construct the `PulseAudio` object,
`if (! pa.initialize(use_dbus)) return 1;`, then return what `pa.run()` returns. -/
def main_run (use_dbus : Bool) (env : Env) : Run :=
  let r := PulseAudio.initialize PulseAudio.ctor use_dbus env.init
  if !r.1 then ⟨r.2.2, Outcome.exit 1⟩
  else
    let l := PulseAudio.run r.2.1 env.events
    ⟨r.2.2 ++ l.effects, l.outcome⟩

/-- `main` (lines 374-396). `name` is `argv[0]` and `args` are `argv[1]`, ... so
`argc` is `args.length + 1`; `argv[argc]` is a null pointer. -/
def main (name : String) (args : List String) (env : Env) : Run :=
  let argc := args.length + 1
  if argc < 2 then usage name
  else
    match args.head? with
    | none => ⟨[], Outcome.fault Fault.nullDeref⟩
    | some a1 =>
      if strcmp a1.data "dbus".data = 0 then main_run true env
      else if strcmp a1.data "stdout".data ≠ 0 then usage name
      else main_run false env

/-! ## Definitions used in the statements -/

/-- The outcome record in which every library call of initialisation succeeds. -/
def allGood : InitOutcomes :=
  { mainloop_new := true, signal_init := 0, signal_new := true, context_new := true,
    context_connect := 0, connect_error := "", dbus := ⟨true, none, none⟩ }

/-- The `PulseAudio` object after a successful initialisation in the given mode. -/
def readyObject (use_dbus : Bool) : PulseAudio :=
  ( PulseAudio.initialize PulseAudio.ctor use_dbus allGood).2.1

/-- A sink record: one channel at `PA_VOLUME_NORM`, not muted. -/
def sampleSink : pa_sink_info := ⟨⟨[65536]⟩, 0⟩

/-- A source record: two channels at half volume, muted. -/
def sampleSource : pa_source_info := ⟨⟨[32768, 32768]⟩, 1⟩

/-- A C string holds no zero character before its end. -/
def NulFree (a : List Char) : Prop := ∀ c ∈ a, c ≠ Char.ofNat 0

/-- Events used in the concrete runs below: a sink notification whose message cannot be
created, a source notification that goes through, then `SIGINT`. -/
def sampleEvents : List Event :=
  [Event.sink_info (some sampleSink) ⟨false, true⟩,
   Event.source_info (some sampleSource) ⟨true, true⟩,
   Event.sigint]

/-- The steps of initialisation that can fail, in program order, each with the call
that starts it and whether it succeeds under the outcomes `o`. `DBus::initialize` is a
step in bus mode only. -/
def initSteps (use_dbus : Bool) (o : InitOutcomes) : List (LibCall × Bool) :=
  [(LibCall.pa_mainloop_new, o.mainloop_new),
   (LibCall.pa_signal_init, decide (o.signal_init = 0)),
   (LibCall.pa_signal_new SIGINT, o.signal_new),
   (LibCall.pa_context_new "PulseAudio Test", o.context_new),
   (LibCall.pa_context_connect, decide (0 ≤ o.context_connect))]
  ++ (if use_dbus then [(LibCall.dbus_bus_get, ( DBus.initialize o.dbus).1)] else [])

/-- The steps that are started when each step runs only if all before it succeeded. -/
def startedSteps : List (LibCall × Bool) → List LibCall
  | [] => []
  | (c, ok) :: rest => c :: (if ok then startedSteps rest else [])

/-- Whether a library call is the start of one of the steps of `initSteps`. -/
def isStepCall : LibCall → Bool
  | LibCall.pa_mainloop_new => true
  | LibCall.pa_signal_init => true
  | LibCall.pa_signal_new _ => true
  | LibCall.pa_context_new _ => true
  | LibCall.pa_context_connect => true
  | LibCall.dbus_bus_get => true
  | _ => false

/-- The signal sent for a sink record. -/
def sinkChanged : BusSignal := ⟨"/com/ch1p/Object", "com.ch1p.pvm", "sinkChanged", []⟩

/-- The signal sent for a source record. -/
def sourceChanged : BusSignal := ⟨"/com/ch1p/Object", "com.ch1p.pvm", "sourceChanged", []⟩

/-- Events of a run in which both notifications go through before `SIGINT`. -/
def busEvents : List Event :=
  [Event.sink_info (some sampleSink) ⟨true, true⟩,
   Event.source_info (some sampleSource) ⟨true, true⟩,
   Event.sigint]

/-! ## Auxiliary facts -/

theorem signalsOf_append (a b : List Effect) : signalsOf (a ++ b) = signalsOf a ++ signalsOf b := by
  induction a with
  | nil => rfl
  | cons x xs ih => cases x <;> simp [signalsOf, ih]

theorem stdoutOf_append (a b : List Effect) : stdoutOf (a ++ b) = stdoutOf a ++ stdoutOf b := by
  induction a with
  | nil => rfl
  | cons x xs ih => cases x <;> simp [stdoutOf, ih]

theorem callsOf_append (a b : List Effect) : callsOf (a ++ b) = callsOf a ++ callsOf b := by
  induction a with
  | nil => rfl
  | cons x xs ih => cases x <;> simp [callsOf, ih]

/-- The userdata a successful initialisation registers, and the loop interface it
stores. -/
theorem initialize_ok_state (use_dbus : Bool) (o : InitOutcomes)
    (h : ( PulseAudio.initialize PulseAudio.ctor use_dbus o).1 = true) :
    ( PulseAudio.initialize PulseAudio.ctor use_dbus o).2.1._myuserdata
        = ⟨use_dbus, Ref.mainloopApi, Ref.dbus⟩
      ∧ ( PulseAudio.initialize PulseAudio.ctor use_dbus o).2.1._mainloop_api = Ref.mainloopApi := by
  revert h
  simp only [ PulseAudio.initialize, PulseAudio.initialize_finish, PulseAudio.ctor]
  split_ifs <;> simp_all

theorem char_toNat_inj (a b : Char) (h : a.toNat = b.toNat) : a = b := by
  rw [← Char.ofNat_toNat a, h, Char.ofNat_toNat]

theorem strcmp_self (a : List Char) : strcmp a a = 0 := by
  induction a with
  | nil => rfl
  | cons x xs ih => simp [strcmp, ih]

/-- On C strings `strcmp` returns zero for equal strings only. -/
theorem strcmp_eq_zero_iff (a b : List Char) (ha : NulFree a) (hb : NulFree b) :
    strcmp a b = 0 ↔ a = b := by
  induction a generalizing b with
  | nil =>
    cases b with
    | nil => simp [strcmp]
    | cons y ys =>
      have hy : y ≠ Char.ofNat 0 := hb y (List.mem_cons_self _ _)
      have : y.toNat ≠ 0 := fun h => hy (char_toNat_inj _ _ (by rw [h]; rfl))
      simp only [strcmp]
      constructor
      · intro h; omega
      · intro h; cases h
  | cons x xs ih =>
    cases b with
    | nil =>
      have hx : x ≠ Char.ofNat 0 := ha x (List.mem_cons_self _ _)
      have : x.toNat ≠ 0 := fun h => hx (char_toNat_inj _ _ (by rw [h]; rfl))
      simp only [strcmp]
      constructor
      · intro h; omega
      · intro h; cases h
    | cons y ys =>
      have hxs : NulFree xs := fun c hc => ha c (List.mem_cons_of_mem _ hc)
      have hys : NulFree ys := fun c hc => hb c (List.mem_cons_of_mem _ hc)
      by_cases hxy : x = y
      · subst hxy
        simp [strcmp, ih ys hxs hys]
      · have hn : x.toNat ≠ y.toNat := fun h => hxy (char_toNat_inj _ _ h)
        simp only [strcmp, if_neg hxy]
        constructor
        · intro h; omega
        · intro h; injection h with h1 _; exact absurd h1 hxy

theorem callsOf_DBus_initialize (d : DBusOutcomes) :
    (callsOf ( DBus.initialize d).2.2).filter isStepCall = [LibCall.dbus_bus_get]
    ∧ LibCall.pa_mainloop_run ∉ callsOf ( DBus.initialize d).2.2
    ∧ LibCall.pa_context_set_state_callback ∉ callsOf ( DBus.initialize d).2.2
    ∧ signalsOf ( DBus.initialize d).2.2 = []
    ∧ (( DBus.initialize d).1 = true ↔ d.bus_get_conn = true ∧ d.request_name_error = none) := by
  rcases d with ⟨c, e1, e2⟩
  cases c <;> cases e1 <;> cases e2 <;>
    simp [ DBus.initialize, callsOf, signalsOf, isStepCall, callsOf_append, signalsOf_append]

/-- `PulseAudio::initialize` returns true exactly when every tested call succeeds. -/
theorem initialize_true_iff (use_dbus : Bool) (o : InitOutcomes) :
    ( PulseAudio.initialize PulseAudio.ctor use_dbus o).1 = true ↔
      o.mainloop_new = true ∧ o.signal_init = 0 ∧ o.signal_new = true ∧ o.context_new = true
        ∧ 0 ≤ o.context_connect ∧ (use_dbus = true → ( DBus.initialize o.dbus).1 = true) := by
  rcases o with ⟨ml, si, sn, cn, cc, ce, d⟩
  unfold PulseAudio.initialize PulseAudio.initialize_finish
  simp only []
  split_ifs <;> simp_all

/-- The same, over the list of steps. -/
theorem initialize_true_iff_steps (use_dbus : Bool) (o : InitOutcomes) :
    ( PulseAudio.initialize PulseAudio.ctor use_dbus o).1 = true ↔
      ∀ st ∈ initSteps use_dbus o, st.2 = true := by
  rw [initialize_true_iff]
  rcases o with ⟨ml, si, sn, cn, cc, ce, d⟩
  cases use_dbus <;> simp [initSteps]

/-- The steps that initialisation starts stop with the first one that fails. -/
theorem initialize_started_steps (use_dbus : Bool) (o : InitOutcomes) :
    (callsOf ( PulseAudio.initialize PulseAudio.ctor use_dbus o).2.2).filter isStepCall
      = startedSteps (initSteps use_dbus o) := by
  obtain ⟨hd1, -⟩ := callsOf_DBus_initialize o.dbus
  rcases o with ⟨ml, si, sn, cn, cc, ce, d⟩
  unfold PulseAudio.initialize PulseAudio.initialize_finish initSteps
  simp only []
  split_ifs <;>
    simp_all [callsOf, callsOf_append, startedSteps, isStepCall, List.filter_append]

/-- A failed initialisation neither runs the main loop nor registers the state
callback. -/
theorem initialize_false_calls (use_dbus : Bool) (o : InitOutcomes)
    (hf : ( PulseAudio.initialize PulseAudio.ctor use_dbus o).1 = false) :
    LibCall.pa_mainloop_run ∉ callsOf ( PulseAudio.initialize PulseAudio.ctor use_dbus o).2.2
    ∧ LibCall.pa_context_set_state_callback
        ∉ callsOf ( PulseAudio.initialize PulseAudio.ctor use_dbus o).2.2 := by
  obtain ⟨-, hd2, hd3, -⟩ := callsOf_DBus_initialize o.dbus
  rcases o with ⟨ml, si, sn, cn, cc, ce, d⟩
  have hd2' : LibCall.pa_mainloop_run ∉ callsOf ( DBus.initialize d).2.2 := hd2
  have hd3' : LibCall.pa_context_set_state_callback ∉ callsOf ( DBus.initialize d).2.2 := hd3
  revert hf
  unfold PulseAudio.initialize PulseAudio.initialize_finish
  simp only []
  split_ifs <;> intro hf <;>
    first
      | (simp only [callsOf, callsOf_append, List.append_eq, List.cons_append, List.nil_append, List.mem_cons,
          List.mem_append, List.not_mem_nil, or_false, reduceCtorEq, not_false_eq_true,
          or_self, false_or, hd2', hd3', and_self]; done)
      | (simp at hf)

/-- In console mode initialisation makes no bus call and ignores the bus outcomes. -/
theorem initialize_console_no_bus (o : InitOutcomes) :
    LibCall.dbus_bus_get ∉ callsOf ( PulseAudio.initialize PulseAudio.ctor false o).2.2
    ∧ ∀ d : DBusOutcomes,
        PulseAudio.initialize PulseAudio.ctor false { o with dbus := d }
          = PulseAudio.initialize PulseAudio.ctor false o := by
  rcases o with ⟨ml, si, sn, cn, cc, ce, d⟩
  refine ⟨?_, ?_⟩
  · unfold PulseAudio.initialize PulseAudio.initialize_finish
    simp only []
    split_ifs <;>
      first
        | contradiction
        | (simp only [callsOf, callsOf_append, List.append_eq, List.cons_append, List.nil_append, List.mem_cons,
            List.mem_append, List.not_mem_nil, or_false, reduceCtorEq, not_false_eq_true,
            or_self, false_or])
  · intro d2
    unfold PulseAudio.initialize PulseAudio.initialize_finish
    simp only []
    split_ifs <;> first | rfl | contradiction

/-- The signals that one call of `DBus::notify` queues. -/
theorem signalsOf_notify (signal_name : String) (o : NotifyOutcomes) :
    ∀ s ∈ signalsOf ( DBus.notify signal_name o).2,
      s = ⟨"/com/ch1p/Object", "com.ch1p.pvm", signal_name, []⟩ := by
  rcases o with ⟨m, sd⟩
  cases m <;> cases sd <;> simp [DBus.notify, signalsOf, DBUS_NAME]

/-- Every signal the sink callback queues is `sinkChanged`. -/
theorem signalsOf_sink_info_callback (i : Option pa_sink_info) (ud : pa_myuserdata)
    (o : NotifyOutcomes) (effs : List Effect)
    (h : PulseAudio.sink_info_callback i ud o = Except.ok effs) :
    ∀ s ∈ signalsOf effs, s = sinkChanged := by
  unfold PulseAudio.sink_info_callback at h
  cases i with
  | none =>
    simp only [Except.ok.injEq] at h
    subst h
    simp [signalsOf]
  | some i =>
    simp only [notify_via] at h
    by_cases hu : ud.use_dbus = true
    · rw [if_pos hu] at h
      split at h
      · simp only [Except.ok.injEq] at h
        subst h
        exact signalsOf_notify _ _
      · cases h
      · cases h
    · rw [if_neg hu] at h
      simp only [Except.ok.injEq] at h
      subst h
      simp [signalsOf]

/-- Every signal the source callback queues is `sourceChanged`. -/
theorem signalsOf_source_info_callback (i : Option pa_source_info) (ud : pa_myuserdata)
    (o : NotifyOutcomes) (effs : List Effect)
    (h : PulseAudio.source_info_callback i ud o = Except.ok effs) :
    ∀ s ∈ signalsOf effs, s = sourceChanged := by
  unfold PulseAudio.source_info_callback at h
  cases i with
  | none =>
    simp only [Except.ok.injEq] at h
    subst h
    simp [signalsOf]
  | some i =>
    simp only [notify_via] at h
    by_cases hu : ud.use_dbus = true
    · rw [if_pos hu] at h
      split at h
      · simp only [Except.ok.injEq] at h
        subst h
        exact signalsOf_notify _ _
      · cases h
      · cases h
    · rw [if_neg hu] at h
      simp only [Except.ok.injEq] at h
      subst h
      simp [signalsOf]

/-- `PulseAudio::quit` queues no signal. -/
theorem signalsOf_quit (mem : PulseAudio) (this : Ref) (ret : Int) (q : List Effect)
    (h : PulseAudio.quit mem this ret = Except.ok q) : signalsOf q = [] := by
  unfold PulseAudio.quit at h
  split at h
  · split at h
    · simp only [Except.ok.injEq] at h
      subst h
      rfl
    · cases h
    · cases h
  · cases h
  · cases h

/-- Whatever the event, a callback queues only the two signals. -/
theorem signalsOf_dispatch (mem : PulseAudio) (e : Event) (effs : List Effect)
    (h : PulseAudio.dispatch mem e = Except.ok effs) :
    ∀ s ∈ signalsOf effs, s = sinkChanged ∨ s = sourceChanged := by
  cases e with
  | context_state st m =>
    simp only [PulseAudio.dispatch, PulseAudio.context_state_callback] at h
    split_ifs at h
    cases st <;> simp only [] at h
    all_goals first
      | (simp only [Except.ok.injEq] at h; subst h; simp [signalsOf])
      | (split at h
         · cases h
         · rename_i q hq
           simp only [Except.ok.injEq] at h
           subst h
           have := signalsOf_quit _ _ _ _ hq
           simp [signalsOf, signalsOf_append, this])
  | subscription t idx =>
    simp only [PulseAudio.dispatch, PulseAudio.subscribe_callback, Except.ok.injEq] at h
    subst h
    split_ifs <;> simp [signalsOf]
  | sink_info i o =>
    intro s hs
    exact Or.inl (signalsOf_sink_info_callback i _ o effs h s hs)
  | source_info i o =>
    intro s hs
    exact Or.inr (signalsOf_source_info_callback i _ o effs h s hs)
  | server_info i =>
    cases i with
    | none => cases h
    | some i =>
      simp only [PulseAudio.dispatch, PulseAudio.server_info_callback, Except.ok.injEq] at h
      subst h
      simp [signalsOf]
  | sigint =>
    have h2 : PulseAudio.quit mem Ref.pulseAudio 0 = Except.ok effs := h
    have := signalsOf_quit _ _ _ _ h2
    simp [this]

/-- A callback that faults has queued no signal before the fault. -/
theorem signalsOf_dispatch_crash (mem : PulseAudio) (e : Event) (c : Crash)
    (h : PulseAudio.dispatch mem e = Except.error c) : signalsOf c.effects = [] := by
  have hq : ∀ (this : Ref) (ret : Int) (c : Crash),
      PulseAudio.quit mem this ret = Except.error c → c.effects = [] := by
    intro this ret c hc
    unfold PulseAudio.quit at hc
    split at hc
    · split at hc
      · cases hc
      · cases hc; rfl
      · cases hc; rfl
    · cases hc; rfl
    · cases hc; rfl
  have hn : ∀ (ud : pa_myuserdata) (nm : String) (o : NotifyOutcomes) (c : Crash),
      notify_via ud nm o = Except.error c → c.effects = [] := by
    intro ud nm o c hc
    unfold notify_via at hc
    split at hc
    · cases hc
    · cases hc; rfl
    · cases hc; rfl
  cases e with
  | context_state st m =>
    simp only [PulseAudio.dispatch, PulseAudio.context_state_callback] at h
    split_ifs at h
    · cases h; rfl
    · cases st <;> simp only [] at h
      all_goals first
        | (cases h)
        | (split at h
           · rename_i c2 hc2
             have := hq _ _ _ hc2
             cases h
             simp [signalsOf, this]
           · cases h)
  | subscription t idx => cases h
  | sink_info i o =>
    simp only [PulseAudio.dispatch, PulseAudio.sink_info_callback] at h
    cases i with
    | none => cases h
    | some i =>
      simp only [] at h
      split_ifs at h
      rw [hn _ _ _ _ h]; rfl
  | source_info i o =>
    simp only [PulseAudio.dispatch, PulseAudio.source_info_callback] at h
    cases i with
    | none => cases h
    | some i =>
      simp only [] at h
      split_ifs at h
      rw [hn _ _ _ _ h]; rfl
  | server_info i =>
    cases i with
    | none => cases h; rfl
    | some i => cases h
  | sigint =>
    have h2 : PulseAudio.quit mem Ref.pulseAudio 0 = Except.error c := h
    rw [hq _ _ _ h2]; rfl

/-- The main loop queues only the two signals. -/
theorem signalsOf_pa_mainloop_run (mem : PulseAudio) (events : List Event) :
    ∀ s ∈ signalsOf (pa_mainloop_run mem events).1, s = sinkChanged ∨ s = sourceChanged := by
  induction events with
  | nil => simp [pa_mainloop_run, signalsOf]
  | cons e es ih =>
    cases hd : PulseAudio.dispatch mem e with
    | error c => simp [pa_mainloop_run, hd, signalsOf_dispatch_crash mem e c hd]
    | ok effs =>
      have h1 := signalsOf_dispatch mem e effs hd
      cases hq : quitRequest effs with
      | some r => simpa [pa_mainloop_run, hd, hq] using h1
      | none =>
        intro s hs
        simp only [pa_mainloop_run, hd, hq, signalsOf_append, List.mem_append] at hs
        rcases hs with hs | hs
        · exact h1 s hs
        · exact ih s hs

/-- Initialisation queues no signal. -/
theorem signalsOf_initialize (use_dbus : Bool) (o : InitOutcomes) :
    signalsOf ( PulseAudio.initialize PulseAudio.ctor use_dbus o).2.2 = [] := by
  obtain ⟨-, -, -, hd, -⟩ := callsOf_DBus_initialize o.dbus
  rcases o with ⟨ml, si, sn, cn, cc, ce, d⟩
  unfold PulseAudio.initialize PulseAudio.initialize_finish
  simp only []
  split_ifs <;>
    simp_all [signalsOf, signalsOf_append]

/-- A whole run of the program queues only the two signals. -/
theorem signalsOf_main (name : String) (args : List String) (env : Env) :
    ∀ s ∈ signalsOf (main name args env).effects, s = sinkChanged ∨ s = sourceChanged := by
  have hrun : ∀ b, ∀ s ∈ signalsOf (main_run b env).effects,
      s = sinkChanged ∨ s = sourceChanged := by
    intro b s hs
    unfold main_run at hs
    simp only [] at hs
    split_ifs at hs with hf
    · simp [ signalsOf_initialize] at hs
    · simp only [signalsOf_append, signalsOf_initialize, List.nil_append, PulseAudio.run] at hs
      have hl := signalsOf_pa_mainloop_run ( PulseAudio.initialize PulseAudio.ctor b env.init).2.1
        env.events
      split at hs <;>
        simp only [signalsOf, signalsOf_append, List.append_eq, List.append_nil] at hs <;>
        exact hl s hs
  unfold main
  simp only []
  split_ifs
  · simp [usage, signalsOf]
  · split
    · simp [signalsOf]
    · split_ifs
      · exact hrun true
      · simp [usage, signalsOf]
      · exact hrun false

/-- An integer rounds to itself. -/
theorem rneInt_intCast (n : ℤ) : rneInt (n : ℚ) = n := by
  simp [rneInt]

/-- `rneInt` returns a nearest integer. -/
theorem rneInt_nearest (x : ℚ) : |x - (rneInt x : ℚ)| ≤ 1 / 2 := by
  have h1 : ((⌊x⌋ : ℤ) : ℚ) ≤ x := Int.floor_le x
  have h2 : x < ((⌊x⌋ : ℤ) : ℚ) + 1 := Int.lt_floor_add_one x
  unfold rneInt
  simp only []
  split_ifs with ha hb hc
  · rw [abs_le]; constructor <;> linarith
  · rw [abs_le]; push_cast; constructor <;> linarith
  · rw [abs_le]; constructor <;> linarith
  · rw [abs_le]; push_cast; constructor <;> linarith

/-- A value with a significand below `2^24` is representable: rounding returns it. -/
theorem roundF32_exact (m : ℕ) (j : ℤ) (hm : m < 2 ^ 24) :
    roundF32 ((m : ℚ) * (2 : ℚ) ^ j) = (m : ℚ) * (2 : ℚ) ^ j := by
  have h2pos : ∀ k : ℤ, (0 : ℚ) < (2 : ℚ) ^ k := fun k => zpow_pos (by norm_num) k
  rcases Nat.eq_zero_or_pos m with h0 | hpos
  · subst h0
    simp [roundF32]
  · have hx : (0 : ℚ) < (m : ℚ) * (2 : ℚ) ^ j := mul_pos (by exact_mod_cast hpos) (h2pos j)
    unfold roundF32
    rw [if_neg (not_le.mpr hx)]
    simp only []
    set x : ℚ := (m : ℚ) * (2 : ℚ) ^ j with hxdef
    set e : ℤ := Int.log 2 x with hedef
    have hle : (2 : ℚ) ^ e ≤ x := by
      have := Int.zpow_log_le_self (b := 2) (r := x) (by norm_num) hx
      simpa using this
    have hlt : x < (2 : ℚ) ^ (j + 24) := by
      have hm' : (m : ℚ) < (2 : ℚ) ^ (24 : ℤ) := by
        have : ((m : ℕ) : ℚ) < ((2 ^ 24 : ℕ) : ℚ) := by exact_mod_cast hm
        norm_num at this ⊢
        exact this
      calc x = (m : ℚ) * (2 : ℚ) ^ j := rfl
        _ < (2 : ℚ) ^ (24 : ℤ) * (2 : ℚ) ^ j := by
            exact mul_lt_mul_of_pos_right hm' (h2pos j)
        _ = (2 : ℚ) ^ (j + 24) := by
            rw [← zpow_add₀ (by norm_num : (2 : ℚ) ≠ 0)]; congr 1; ring
    have he : e < j + 24 := by
      have := lt_of_le_of_lt hle hlt
      exact (zpow_lt_zpow_iff_right₀ (by norm_num : (1 : ℚ) < 2)).1 this
    obtain ⟨k, hk⟩ : ∃ k : ℕ, (k : ℤ) = j + 23 - e := ⟨(j + 23 - e).toNat, by omega⟩
    have hdiv : x / (2 : ℚ) ^ (e - 23) = (((m * 2 ^ k : ℕ) : ℤ) : ℚ) := by
      rw [div_eq_iff (ne_of_gt (h2pos _))]
      push_cast
      rw [hxdef, mul_assoc, ← zpow_natCast, ← zpow_add₀ (by norm_num : (2 : ℚ) ≠ 0)]
      congr 2
      omega
    rw [hdiv, rneInt_intCast]
    push_cast
    rw [hxdef, mul_assoc, ← zpow_natCast, ← zpow_add₀ (by norm_num : (2 : ℚ) ≠ 0)]
    congr 2
    omega

/-- For averages below `2^24 / 25` every operation of the percentage computation is
exact. -/
theorem percent_value_exact (v : ℕ) (hv : 25 * v < 2 ^ 24) :
    f32_mul (f32_div (f32_of_uint v) (f32_of_uint PA_VOLUME_NORM)) (roundF32 100)
      = 100 * (v : ℚ) / 65536 := by
  have e1 : f32_of_uint v = (v : ℚ) := by
    have := roundF32_exact v 0 (by omega)
    simpa [f32_of_uint] using this
  have e2 : f32_of_uint PA_VOLUME_NORM = 65536 := by
    have := roundF32_exact 65536 0 (by norm_num)
    simpa [f32_of_uint, PA_VOLUME_NORM] using this
  have e3 : roundF32 100 = 100 := by
    have := roundF32_exact 100 0 (by norm_num)
    simpa using this
  have e4 : f32_div (v : ℚ) 65536 = (v : ℚ) / 65536 := by
    have := roundF32_exact v (-16) (by omega)
    have h16 : (2 : ℚ) ^ (-16 : ℤ) = 1 / 65536 := by norm_num [zpow_neg]
    rw [h16] at this
    unfold f32_div
    rw [div_eq_mul_one_div]
    exact this
  have e5 : f32_mul ((v : ℚ) / 65536) 100 = 100 * (v : ℚ) / 65536 := by
    have := roundF32_exact (25 * v) (-14) hv
    have h14 : (2 : ℚ) ^ (-14 : ℤ) = 1 / 16384 := by norm_num [zpow_neg]
    rw [h14] at this
    unfold f32_mul
    have hx : (v : ℚ) / 65536 * 100 = ((25 * v : ℕ) : ℚ) * (1 / 16384) := by
      push_cast; ring
    rw [hx, this]
    push_cast; ring
  rw [e1, e2, e3, e4, e5]

/-- A non-negative value rounds to a non-negative integer. -/
theorem rneInt_nonneg (x : ℚ) (hx : 0 ≤ x) : 0 ≤ rneInt x := by
  have h0 : (0 : ℤ) ≤ ⌊x⌋ := Int.floor_nonneg.mpr hx
  unfold rneInt
  simp only []
  split_ifs <;> omega

/-- Rounding to binary32 changes a non-negative value by at most the fraction `2^-24`
of it. -/
theorem roundF32_bounds (x : ℚ) (hx : 0 ≤ x) :
    x * (1 - 1 / 16777216) ≤ roundF32 x ∧ roundF32 x ≤ x * (1 + 1 / 16777216) := by
  rcases eq_or_lt_of_le hx with h0 | hpos
  · subst h0
    simp [roundF32]
  · unfold roundF32
    rw [if_neg (not_le.mpr hpos)]
    simp only []
    set e : ℤ := Int.log 2 x with hedef
    have hle : (2 : ℚ) ^ e ≤ x := by
      have := Int.zpow_log_le_self (b := 2) (r := x) (by norm_num) hpos
      simpa using this
    have hu : (0 : ℚ) < (2 : ℚ) ^ (e - 23) := zpow_pos (by norm_num) _
    have hulp : (2 : ℚ) ^ (e - 23) = (2 : ℚ) ^ e * (1 / 8388608) := by
      rw [zpow_sub₀ (by norm_num : (2 : ℚ) ≠ 0)]
      norm_num
      ring
    have hn := rneInt_nearest (x / (2 : ℚ) ^ (e - 23))
    rw [abs_le] at hn
    obtain ⟨h1, h2⟩ := hn
    have hxy : x = x / (2 : ℚ) ^ (e - 23) * (2 : ℚ) ^ (e - 23) := by
      field_simp
    set y : ℚ := x / (2 : ℚ) ^ (e - 23) with hy
    set u : ℚ := (2 : ℚ) ^ (e - 23) with hudef
    have hub : u ≤ x * (1 / 8388608) := by
      rw [hulp]
      exact mul_le_mul_of_nonneg_right hle (by norm_num)
    constructor
    · have : (y - 1 / 2) * u ≤ (rneInt y : ℚ) * u :=
        mul_le_mul_of_nonneg_right (by linarith) hu.le
      nlinarith
    · have : (rneInt y : ℚ) * u ≤ (y + 1 / 2) * u :=
        mul_le_mul_of_nonneg_right (by linarith) hu.le
      nlinarith

/-- Rounding keeps a non-negative value non-negative. -/
theorem roundF32_nonneg (x : ℚ) (hx : 0 ≤ x) : 0 ≤ roundF32 x := by
  have h := (roundF32_bounds x hx).1
  have : 0 ≤ x * (1 - 1 / 16777216) := mul_nonneg hx (by norm_num)
  linarith

/-- The value handed to `printf`: within the fraction `2^-22` of `100 * v / 65536`. -/
theorem percent_value_bounds (v : ℕ) :
    0 ≤ f32_mul (f32_div (f32_of_uint v) (f32_of_uint PA_VOLUME_NORM)) (roundF32 100)
    ∧ |f32_mul (f32_div (f32_of_uint v) (f32_of_uint PA_VOLUME_NORM)) (roundF32 100)
        - 100 * (v : ℚ) / 65536| ≤ 100 * (v : ℚ) / 65536 / 4194304 := by
  have e2 : f32_of_uint PA_VOLUME_NORM = 65536 := by
    have := roundF32_exact 65536 0 (by norm_num)
    simpa [f32_of_uint, PA_VOLUME_NORM] using this
  have e3 : roundF32 100 = 100 := by
    have := roundF32_exact 100 0 (by norm_num)
    simpa using this
  rw [e2, e3]
  unfold f32_mul f32_div f32_of_uint
  have hv : (0 : ℚ) ≤ (v : ℚ) := Nat.cast_nonneg v
  obtain ⟨a1, a2⟩ := roundF32_bounds (v : ℚ) hv
  have ha0 := roundF32_nonneg (v : ℚ) hv
  set a : ℚ := roundF32 (v : ℚ) with hadef
  have hq0 : (0 : ℚ) ≤ a / 65536 := div_nonneg ha0 (by norm_num)
  obtain ⟨q1, q2⟩ := roundF32_bounds (a / 65536) hq0
  have hq0' := roundF32_nonneg (a / 65536) hq0
  set q : ℚ := roundF32 (a / 65536) with hqdef
  have hp0 : (0 : ℚ) ≤ q * 100 := mul_nonneg hq0' (by norm_num)
  obtain ⟨p1, p2⟩ := roundF32_bounds (q * 100) hp0
  have hp0' := roundF32_nonneg (q * 100) hp0
  set p : ℚ := roundF32 (q * 100) with hpdef
  refine ⟨hp0', ?_⟩
  rw [abs_le]
  constructor <;> nlinarith


/-- The percentage text is the decimal form of a natural number `P` that differs from
`100 * v / 65536` by at most one half plus the fraction `2^-22` of that value, and by
at most one half when `25 * v < 2^24`. -/
theorem percent_text_spec (v : ℕ) :
    ∃ P : ℕ, percent_text v = toString P
      ∧ |(P : ℚ) - 100 * (v : ℚ) / 65536| ≤ 1 / 2 + 100 * (v : ℚ) / 65536 / 4194304
      ∧ (25 * v < 2 ^ 24 → |(P : ℚ) - 100 * (v : ℚ) / 65536| ≤ 1 / 2) := by
  obtain ⟨hp0, hpb⟩ := percent_value_bounds v
  set p : ℚ := f32_mul (f32_div (f32_of_uint v) (f32_of_uint PA_VOLUME_NORM)) (roundF32 100)
    with hpdef
  have hn := rneInt_nonneg p hp0
  have hc : (((rneInt p).toNat : ℕ) : ℚ) = ((rneInt p : ℤ) : ℚ) := by
    have : (((rneInt p).toNat : ℕ) : ℤ) = rneInt p := Int.toNat_of_nonneg hn
    exact_mod_cast this
  have hr := rneInt_nearest p
  rw [abs_le] at hr hpb
  refine ⟨(rneInt p).toNat, rfl, ?_, ?_⟩
  · rw [hc, abs_le]
    constructor <;> linarith [hr.1, hr.2, hpb.1, hpb.2]
  · intro hv
    have he : p = 100 * (v : ℚ) / 65536 := percent_value_exact v hv
    rw [hc, abs_le, ← he]
    constructor <;> linarith [hr.1, hr.2]

/-- The percentage text of volume zero. -/
theorem percent_text_zero : percent_text 0 = "0" := by
  unfold percent_text printf_f0
  simp only []
  rw [percent_value_exact 0 (by norm_num)]
  have : (100 * ((0 : ℕ) : ℚ) / 65536) = ((0 : ℤ) : ℚ) := by norm_num
  rw [this, rneInt_intCast]
  rfl

/-- The percentage text of the normal volume. -/
theorem percent_text_norm : percent_text PA_VOLUME_NORM = "100" := by
  unfold percent_text printf_f0
  simp only []
  rw [percent_value_exact PA_VOLUME_NORM (by norm_num [PA_VOLUME_NORM])]
  have : (100 * ((PA_VOLUME_NORM : ℕ) : ℚ) / 65536) = ((100 : ℤ) : ℚ) := by
    norm_num [PA_VOLUME_NORM]
  rw [this, rneInt_intCast]
  rfl

/-- No callback makes the bus-connection call, whether it returns or faults. -/
theorem bus_get_not_in_dispatch (mem : PulseAudio) (e : Event) :
    (∀ effs, PulseAudio.dispatch mem e = Except.ok effs → LibCall.dbus_bus_get ∉ callsOf effs)
    ∧ (∀ c, PulseAudio.dispatch mem e = Except.error c →
        LibCall.dbus_bus_get ∉ callsOf c.effects) := by
  have hq : ∀ (this : Ref) (ret : Int),
      (∀ q, PulseAudio.quit mem this ret = Except.ok q → LibCall.dbus_bus_get ∉ callsOf q)
      ∧ (∀ c, PulseAudio.quit mem this ret = Except.error c → c.effects = []) := by
    intro this ret
    unfold PulseAudio.quit
    constructor
    · intro q hq
      split at hq
      · split at hq
        · cases hq; simp [callsOf]
        · cases hq
        · cases hq
      · cases hq
      · cases hq
    · intro c hc
      split at hc
      · split at hc
        · cases hc
        · cases hc; rfl
        · cases hc; rfl
      · cases hc; rfl
      · cases hc; rfl
  have hn : ∀ (ud : pa_myuserdata) (nm : String) (o : NotifyOutcomes),
      (∀ q, notify_via ud nm o = Except.ok q → LibCall.dbus_bus_get ∉ callsOf q)
      ∧ (∀ c, notify_via ud nm o = Except.error c → c.effects = []) := by
    intro ud nm o
    unfold notify_via
    constructor
    · intro q hq
      split at hq
      · cases hq
        rcases o with ⟨m, sd⟩
        cases m <;> cases sd <;> simp [DBus.notify, callsOf]
      · cases hq
      · cases hq
    · intro c hc
      split at hc
      · cases hc
      · cases hc; rfl
      · cases hc; rfl
  cases e with
  | context_state st m =>
    simp only [PulseAudio.dispatch, PulseAudio.context_state_callback]
    split_ifs
    · exact ⟨fun effs h => (by cases h), fun c h => (by cases h; simp [callsOf])⟩
    · cases st <;> simp only []
      all_goals first
        | exact ⟨fun effs h => (by cases h; simp [callsOf]), fun c h => (by cases h)⟩
        | (constructor
           · intro effs h
             split at h
             · cases h
             · rename_i q hq'
               have := (hq _ _).1 q hq'
               cases h
               simpa [callsOf, callsOf_append] using this
           · intro c h
             split at h
             · rename_i c2 hc2
               have := (hq _ _).2 c2 hc2
               cases h
               simp [callsOf, this]
             · cases h)
  | subscription t idx =>
    simp only [PulseAudio.dispatch, PulseAudio.subscribe_callback]
    refine ⟨fun effs h => ?_, fun c h => by cases h⟩
    cases h
    split_ifs <;> simp [callsOf]
  | sink_info i o =>
    simp only [PulseAudio.dispatch, PulseAudio.sink_info_callback]
    cases i with
    | none => exact ⟨fun effs h => (by cases h; simp [callsOf]), fun c h => (by cases h)⟩
    | some i =>
      simp only []
      by_cases hu : mem._myuserdata.use_dbus = true
      · rw [if_pos hu]
        exact ⟨(hn _ _ _).1, fun c h => by rw [(hn _ _ _).2 c h]; simp [callsOf]⟩
      · rw [if_neg hu]
        exact ⟨fun effs h => (by cases h; simp [callsOf]), fun c h => (by cases h)⟩
  | source_info i o =>
    simp only [PulseAudio.dispatch, PulseAudio.source_info_callback]
    cases i with
    | none => exact ⟨fun effs h => (by cases h; simp [callsOf]), fun c h => (by cases h)⟩
    | some i =>
      simp only []
      by_cases hu : mem._myuserdata.use_dbus = true
      · rw [if_pos hu]
        exact ⟨(hn _ _ _).1, fun c h => by rw [(hn _ _ _).2 c h]; simp [callsOf]⟩
      · rw [if_neg hu]
        exact ⟨fun effs h => (by cases h; simp [callsOf]), fun c h => (by cases h)⟩
  | server_info i =>
    cases i with
    | none => exact ⟨fun effs h => (by cases h), fun c h => (by cases h; simp [callsOf])⟩
    | some i =>
      exact ⟨fun effs h => (by cases h; simp [callsOf]), fun c h => (by cases h)⟩
  | sigint =>
    constructor
    · intro effs h
      have h2 : PulseAudio.quit mem Ref.pulseAudio 0 = Except.ok effs := h
      exact (hq _ _).1 effs h2
    · intro c h
      have h2 : PulseAudio.quit mem Ref.pulseAudio 0 = Except.error c := h
      rw [(hq _ _).2 c h2]; simp [callsOf]

/-- The main loop never makes the bus-connection call. -/
theorem bus_get_not_in_loop (mem : PulseAudio) (events : List Event) :
    LibCall.dbus_bus_get ∉ callsOf (pa_mainloop_run mem events).1 := by
  induction events with
  | nil => simp [pa_mainloop_run, callsOf]
  | cons e es ih =>
    obtain ⟨h1, h2⟩ := bus_get_not_in_dispatch mem e
    cases hd : PulseAudio.dispatch mem e with
    | error c => simpa [pa_mainloop_run, hd] using h2 c hd
    | ok effs =>
      cases hq : quitRequest effs with
      | some r => simpa [pa_mainloop_run, hd, hq] using h1 effs hd
      | none =>
        simp only [pa_mainloop_run, hd, hq, callsOf_append, List.mem_append, not_or]
        exact ⟨h1 effs hd, ih⟩

/-- `PulseAudio::run` never makes the bus-connection call. -/
theorem bus_get_not_in_run (mem : PulseAudio) (events : List Event) :
    LibCall.dbus_bus_get ∉ callsOf ( PulseAudio.run mem events).effects := by
  have h := bus_get_not_in_loop mem events
  unfold PulseAudio.run
  simp only []
  split <;> simp [callsOf, callsOf_append, h]

/-- In bus mode, when the five earlier steps succeed, initialisation makes the
bus-connection call. -/
theorem bus_get_in_initialize (o : InitOutcomes)
    (h1 : o.mainloop_new = true) (h2 : o.signal_init = 0) (h3 : o.signal_new = true)
    (h4 : o.context_new = true) (h5 : 0 ≤ o.context_connect) :
    LibCall.dbus_bus_get ∈ callsOf ( PulseAudio.initialize PulseAudio.ctor true o).2.2 := by
  have hs := initialize_started_steps true o
  have : LibCall.dbus_bus_get ∈ startedSteps (initSteps true o) := by
    simp [initSteps, startedSteps, h1, h2, h3, h4, h5]
  rw [← hs] at this
  exact (List.mem_filter.1 this).1


/-! ## The claims -/

/-- Claim C9. For every event value `type` and index `idx`, what `subscribe_callback`
does is fixed by the facility bits `type &&& PA_SUBSCRIPTION_EVENT_FACILITY_MASK`:
facility SINK gives exactly one sink-information request for `idx`, facility SOURCE
exactly one source-information request for `idx`, any other facility no request and
the line `Unknown event <facility>`; two event values with the same facility bits, in
particular two that differ only outside the facility mask, give the same effects. -/
theorem subscribe_callback_by_facility (type idx : Nat) :
    (type &&& PA_SUBSCRIPTION_EVENT_FACILITY_MASK = PA_SUBSCRIPTION_EVENT_SINK →
      PulseAudio.subscribe_callback type idx
        = [Effect.call (LibCall.pa_context_get_sink_info_by_index idx)])
    ∧ (type &&& PA_SUBSCRIPTION_EVENT_FACILITY_MASK = PA_SUBSCRIPTION_EVENT_SOURCE →
      PulseAudio.subscribe_callback type idx
        = [Effect.call (LibCall.pa_context_get_source_info_by_index idx)])
    ∧ (type &&& PA_SUBSCRIPTION_EVENT_FACILITY_MASK ≠ PA_SUBSCRIPTION_EVENT_SINK →
       type &&& PA_SUBSCRIPTION_EVENT_FACILITY_MASK ≠ PA_SUBSCRIPTION_EVENT_SOURCE →
      PulseAudio.subscribe_callback type idx
        = [Effect.out ("Unknown event "
            ++ toString (type &&& PA_SUBSCRIPTION_EVENT_FACILITY_MASK) ++ "\n")])
    ∧ (∀ type2 : Nat,
        type2 &&& PA_SUBSCRIPTION_EVENT_FACILITY_MASK
          = type &&& PA_SUBSCRIPTION_EVENT_FACILITY_MASK →
        PulseAudio.subscribe_callback type2 idx = PulseAudio.subscribe_callback type idx)
    ∧ (∀ k : Nat, k &&& PA_SUBSCRIPTION_EVENT_FACILITY_MASK = 0 →
        PulseAudio.subscribe_callback (type ^^^ k) idx = PulseAudio.subscribe_callback type idx) := by
  refine ⟨?_, ?_, ?_, ?_, ?_⟩
  · intro h
    simp [PulseAudio.subscribe_callback, h]
  · intro h
    have hne : PA_SUBSCRIPTION_EVENT_SOURCE ≠ PA_SUBSCRIPTION_EVENT_SINK := by decide
    simp [PulseAudio.subscribe_callback, h, hne]
  · intro h1 h2
    simp [PulseAudio.subscribe_callback, h1, h2]
  · intro type2 h
    simp only [PulseAudio.subscribe_callback, h]
  · intro k hk
    have h : (type ^^^ k) &&& PA_SUBSCRIPTION_EVENT_FACILITY_MASK
        = type &&& PA_SUBSCRIPTION_EVENT_FACILITY_MASK := by
      rw [Nat.and_xor_distrib_right, hk, Nat.xor_zero]
    simp only [PulseAudio.subscribe_callback, h]

/-- Claim C9, at concrete events: a sink event, a source event and an event of
facility 2, each with change bits (0x10) set, and a change of the type bits. -/
theorem subscribe_callback_by_facility_witness :
    PulseAudio.subscribe_callback 0x10 7
        = [Effect.call (LibCall.pa_context_get_sink_info_by_index 7)]
    ∧ PulseAudio.subscribe_callback 0x11 7
        = [Effect.call (LibCall.pa_context_get_source_info_by_index 7)]
    ∧ PulseAudio.subscribe_callback 0x12 7 = [Effect.out "Unknown event 2\n"]
    ∧ PulseAudio.subscribe_callback 0x21 7 = PulseAudio.subscribe_callback 0x11 7
    ∧ PulseAudio.subscribe_callback (0x01 ^^^ 0x20) 7 = PulseAudio.subscribe_callback 0x01 7 :=
  ⟨(subscribe_callback_by_facility 0x10 7).1 (by decide),
   (subscribe_callback_by_facility 0x11 7).2.1 (by decide),
   (subscribe_callback_by_facility 0x12 7).2.2.1 (by decide) (by decide),
   (subscribe_callback_by_facility 0x11 7).2.2.2.1 0x21 (by decide),
   (subscribe_callback_by_facility 0x01 7).2.2.2.2 0x20 (by decide)⟩

/-- Claim C10. With an absent record `sink_info_callback` and `source_info_callback`
return at once in both modes (no output, no signal, no request), but
`server_info_callback` has no such test: its first statement reads a field of the
absent record, which is a null-pointer dereference. -/
theorem server_info_callback_null_faults :
    PulseAudio.server_info_callback none = Except.error ⟨[], Fault.nullDeref⟩
    ∧ (∀ (ud : pa_myuserdata) (o : NotifyOutcomes),
        PulseAudio.sink_info_callback none ud o = Except.ok []
        ∧ PulseAudio.source_info_callback none ud o = Except.ok []) :=
  ⟨rfl, fun _ _ => ⟨rfl, rfl⟩⟩

/-- Claim C1, as stated, fails: in bus mode, with a present sink record, when
`dbus_message_new_signal` returns null the callback sends no signal at all (it prints
`DBus: Message Null` on standard error and returns). -/
theorem sink_info_callback_no_signal_on_failure :
    PulseAudio.sink_info_callback (some sampleSink) ⟨true, Ref.mainloopApi, Ref.dbus⟩ ⟨false, true⟩
      = Except.ok [Effect.call
            (LibCall.dbus_message_new_signal "/com/ch1p/Object" "com.ch1p.pvm" "sinkChanged"),
          Effect.err "DBus: Message Null\n"]
    ∧ signalsOf [Effect.call
            (LibCall.dbus_message_new_signal "/com/ch1p/Object" "com.ch1p.pvm" "sinkChanged"),
          Effect.err "DBus: Message Null\n"] = [] :=
  ⟨rfl, rfl⟩

/-- Claim C1, amended. For every present sink or source record, with the userdata that
initialisation registers: in bus mode the callback's effects are exactly those of one
call of `DBus::notify` (with `sinkChanged`, respectively `sourceChanged`), which writes
nothing to standard output and queues exactly one signal when message creation and
queuing both succeed and none otherwise; in console mode the callback's only effect is
one write to standard output, so no signal is sent. -/
theorem info_callback_one_output (ud : pa_myuserdata) (o : NotifyOutcomes)
    (si : pa_sink_info) (so : pa_source_info) (hd : ud.dbus = Ref.dbus) :
    (ud.use_dbus = true →
      PulseAudio.sink_info_callback (some si) ud o = Except.ok (DBus.notify "sinkChanged" o).2
      ∧ PulseAudio.source_info_callback (some so) ud o
          = Except.ok (DBus.notify "sourceChanged" o).2
      ∧ ∀ signal_name : String,
          stdoutOf (DBus.notify signal_name o).2 = []
          ∧ (signalsOf (DBus.notify signal_name o).2).length
              = (if o.message_new = true ∧ o.send = true then 1 else 0))
    ∧ (ud.use_dbus = false →
      ∃ line1 line2 : String,
        PulseAudio.sink_info_callback (some si) ud o = Except.ok [Effect.out line1]
        ∧ PulseAudio.source_info_callback (some so) ud o = Except.ok [Effect.out line2]
        ∧ signalsOf [Effect.out line1] = [] ∧ signalsOf [Effect.out line2] = []
        ∧ stdoutOf [Effect.out line1] = [line1] ∧ stdoutOf [Effect.out line2] = [line2]) := by
  constructor
  · intro hu
    refine ⟨?_, ?_, ?_⟩
    · simp [PulseAudio.sink_info_callback, notify_via, hu, hd]
    · simp [PulseAudio.source_info_callback, notify_via, hu, hd]
    · intro signal_name
      rcases o with ⟨m, sd⟩
      cases m <;> cases sd <;> simp [DBus.notify, stdoutOf, signalsOf]
  · intro hu
    have h1 : PulseAudio.sink_info_callback (some si) ud o
        = Except.ok [Effect.out ("[sink  ] percent volume = "
            ++ percent_text (pa_cvolume_avg si.volume)
            ++ "%" ++ (if si.mute ≠ 0 then " (muted)" else "") ++ "\n")] := by
      unfold PulseAudio.sink_info_callback
      rw [hu]
      rfl
    have h2 : PulseAudio.source_info_callback (some so) ud o
        = Except.ok [Effect.out ("[source] percent volume = "
            ++ percent_text (pa_cvolume_avg so.volume)
            ++ "%" ++ (if so.mute ≠ 0 then " (muted)" else "") ++ "\n")] := by
      unfold PulseAudio.source_info_callback
      rw [hu]
      rfl
    exact ⟨_, _, h1, h2, rfl, rfl, rfl, rfl⟩

/-- Claim C1, amended, applied in bus mode with both libdbus calls succeeding and in
console mode. -/
theorem info_callback_one_output_witness :
    (PulseAudio.sink_info_callback (some sampleSink) ⟨true, Ref.mainloopApi, Ref.dbus⟩ ⟨true, true⟩
        = Except.ok (DBus.notify "sinkChanged" ⟨true, true⟩).2
      ∧ PulseAudio.source_info_callback (some sampleSource) ⟨true, Ref.mainloopApi, Ref.dbus⟩
          ⟨true, true⟩ = Except.ok (DBus.notify "sourceChanged" ⟨true, true⟩).2
      ∧ ∀ signal_name : String,
          stdoutOf (DBus.notify signal_name ⟨true, true⟩).2 = []
          ∧ (signalsOf (DBus.notify signal_name ⟨true, true⟩).2).length
              = (if (true = true ∧ true = true) then 1 else 0))
    ∧ (∃ line1 line2 : String,
        PulseAudio.sink_info_callback (some sampleSink) ⟨false, Ref.mainloopApi, Ref.dbus⟩
            ⟨true, true⟩ = Except.ok [Effect.out line1]
        ∧ PulseAudio.source_info_callback (some sampleSource) ⟨false, Ref.mainloopApi, Ref.dbus⟩
            ⟨true, true⟩ = Except.ok [Effect.out line2]
        ∧ signalsOf [Effect.out line1] = [] ∧ signalsOf [Effect.out line2] = []
        ∧ stdoutOf [Effect.out line1] = [line1] ∧ stdoutOf [Effect.out line2] = [line2]) :=
  ⟨(info_callback_one_output ⟨true, Ref.mainloopApi, Ref.dbus⟩ ⟨true, true⟩
      sampleSink sampleSource rfl).1 rfl,
   (info_callback_one_output ⟨false, Ref.mainloopApi, Ref.dbus⟩ ⟨true, true⟩
      sampleSink sampleSource rfl).2 rfl⟩

/-- Claim C5. After a successful initialisation (either mode, any outcomes), the state
callback asks for no termination in the states CONNECTING, AUTHORIZING, SETTING_NAME and
READY, but in the states TERMINATED and FAILED it does not reach the main loop's `quit`:
it calls `PulseAudio::quit` through the `pa_mainloop_api` pointer cast to
`PulseAudio*`, so the member read inside `quit` is through a pointer of the wrong class.
The `SIGINT` handler, which receives the real `this`, does request termination with
code 0. So a run in which the loop delivers TERMINATED or FAILED ends in undefined
behaviour, not with status 0 or 1; a code that does reach the loop's `quit` is returned
by `run` and by `main`. -/
theorem context_state_callback_quit_faults (use_dbus : Bool) (o : InitOutcomes) (errmsg : String)
    (h : ( PulseAudio.initialize PulseAudio.ctor use_dbus o).1 = true) :
    PulseAudio.context_state_callback ( PulseAudio.initialize PulseAudio.ctor use_dbus o).2.1
        pa_context_state_t.TERMINATED errmsg
        ( PulseAudio.initialize PulseAudio.ctor use_dbus o).2.1._myuserdata
      = Except.error ⟨[], Fault.badCast⟩
    ∧ PulseAudio.context_state_callback ( PulseAudio.initialize PulseAudio.ctor use_dbus o).2.1
        pa_context_state_t.FAILED errmsg
        ( PulseAudio.initialize PulseAudio.ctor use_dbus o).2.1._myuserdata
      = Except.error ⟨[Effect.err ("Connection failure: " ++ errmsg ++ "\n")], Fault.badCast⟩
    ∧ (∀ st : pa_context_state_t,
        st = pa_context_state_t.CONNECTING ∨ st = pa_context_state_t.AUTHORIZING
          ∨ st = pa_context_state_t.SETTING_NAME ∨ st = pa_context_state_t.READY →
        ∃ effs : List Effect,
          PulseAudio.context_state_callback
              ( PulseAudio.initialize PulseAudio.ctor use_dbus o).2.1 st errmsg
              ( PulseAudio.initialize PulseAudio.ctor use_dbus o).2.1._myuserdata
            = Except.ok effs
          ∧ quitRequest effs = none)
    ∧ PulseAudio.exit_signal_callback ( PulseAudio.initialize PulseAudio.ctor use_dbus o).2.1
        Ref.pulseAudio = Except.ok [Effect.call (LibCall.mainloop_quit 0)]
    ∧ (∀ (st : pa_context_state_t) (rest : List Event),
        st = pa_context_state_t.TERMINATED ∨ st = pa_context_state_t.FAILED →
        (main_run use_dbus ⟨o, Event.context_state st errmsg :: rest⟩).outcome
          = Outcome.fault Fault.badCast)
    ∧ (∀ (events : List Event) (r : Int),
        (pa_mainloop_run ( PulseAudio.initialize PulseAudio.ctor use_dbus o).2.1 events).2
          = LoopEnd.quit r →
        (main_run use_dbus ⟨o, events⟩).outcome = Outcome.exit r) := by
  obtain ⟨hud, hapi⟩ := initialize_ok_state use_dbus o h
  refine ⟨?_, ?_, ?_, ?_, ?_, ?_⟩
  · rw [hud]; rfl
  · rw [hud]; rfl
  · intro st hst
    rw [hud]
    rcases hst with rfl | rfl | rfl | rfl
    · exact ⟨_, rfl, rfl⟩
    · exact ⟨_, rfl, rfl⟩
    · exact ⟨_, rfl, rfl⟩
    · exact ⟨_, rfl, rfl⟩
  · simp [PulseAudio.exit_signal_callback, PulseAudio.quit, hapi]
  · intro st rest hst
    have hd : ∃ c : Crash,
        PulseAudio.dispatch ( PulseAudio.initialize PulseAudio.ctor use_dbus o).2.1
          (Event.context_state st errmsg) = Except.error c ∧ c.fault = Fault.badCast := by
      simp only [PulseAudio.dispatch]
      rw [hud]
      rcases hst with rfl | rfl
      · exact ⟨_, rfl, rfl⟩
      · exact ⟨_, rfl, rfl⟩
    obtain ⟨c, hc, hf⟩ := hd
    simp [main_run, h, PulseAudio.run, pa_mainloop_run, hc, hf]
  · intro events r hr
    simp [main_run, h, PulseAudio.run, hr]

/-- Claim C5 at a concrete run: console mode, every library call of initialisation
succeeding. -/
theorem context_state_callback_quit_faults_witness :
    PulseAudio.context_state_callback (readyObject false) pa_context_state_t.TERMINATED ""
        (readyObject false)._myuserdata = Except.error ⟨[], Fault.badCast⟩
    ∧ PulseAudio.context_state_callback (readyObject false) pa_context_state_t.FAILED ""
        (readyObject false)._myuserdata
      = Except.error ⟨[Effect.err ("Connection failure: " ++ "" ++ "\n")], Fault.badCast⟩ :=
  ⟨(context_state_callback_quit_faults false allGood "" rfl).1,
   (context_state_callback_quit_faults false allGood "" rfl).2.1⟩

/-- Claim C8, as stated, fails: in bus mode a sink notification whose message cannot
be created is followed by a source notification that is signalled as usual, and the
process runs on until `SIGINT` ends it with status 0. -/
theorem run_continues_after_failed_notify :
    (main "pvm" ["dbus"] ⟨allGood, sampleEvents⟩).outcome = Outcome.exit 0
    ∧ stderrOf (main "pvm" ["dbus"] ⟨allGood, sampleEvents⟩).effects = ["DBus: Message Null\n"]
    ∧ signalsOf (main "pvm" ["dbus"] ⟨allGood, sampleEvents⟩).effects
        = [⟨"/com/ch1p/Object", "com.ch1p.pvm", "sourceChanged", []⟩] :=
  ⟨rfl, rfl, rfl⟩

/-- Claim C8, amended. When sending a bus signal fails (the message cannot be created
or cannot be queued), `DBus::notify` prints one diagnostic on standard error, queues
nothing and returns false; the callback drops that result: no termination is
requested, and the main loop goes on to deliver the remaining events. -/
theorem failed_notify_is_ignored (mem : PulseAudio) (o : NotifyOutcomes)
    (si : pa_sink_info) (so : pa_source_info) (rest : List Event)
    (hu : mem._myuserdata.use_dbus = true) (hd : mem._myuserdata.dbus = Ref.dbus)
    (hfail : o.message_new = false ∨ o.send = false) :
    (∀ signal_name : String,
        (DBus.notify signal_name o).1 = false
        ∧ (stderrOf (DBus.notify signal_name o).2).length = 1
        ∧ signalsOf (DBus.notify signal_name o).2 = []
        ∧ quitRequest (DBus.notify signal_name o).2 = none)
    ∧ pa_mainloop_run mem (Event.sink_info (some si) o :: rest)
        = ((DBus.notify "sinkChanged" o).2 ++ (pa_mainloop_run mem rest).1,
           (pa_mainloop_run mem rest).2)
    ∧ pa_mainloop_run mem (Event.source_info (some so) o :: rest)
        = ((DBus.notify "sourceChanged" o).2 ++ (pa_mainloop_run mem rest).1,
           (pa_mainloop_run mem rest).2) := by
  have hn : ∀ signal_name : String,
      (DBus.notify signal_name o).1 = false
      ∧ (stderrOf (DBus.notify signal_name o).2).length = 1
      ∧ signalsOf (DBus.notify signal_name o).2 = []
      ∧ quitRequest (DBus.notify signal_name o).2 = none := by
    intro signal_name
    rcases o with ⟨m, sd⟩
    cases m <;> cases sd <;> simp_all [DBus.notify, stderrOf, signalsOf, quitRequest]
  refine ⟨hn, ?_, ?_⟩
  · simp [pa_mainloop_run, PulseAudio.dispatch, PulseAudio.sink_info_callback, notify_via,
      hu, hd, (hn "sinkChanged").2.2.2]
  · simp [pa_mainloop_run, PulseAudio.dispatch, PulseAudio.source_info_callback, notify_via,
      hu, hd, (hn "sourceChanged").2.2.2]

/-- Claim C8, amended, applied to the object of a successful bus-mode initialisation
and a message that cannot be created. -/
theorem failed_notify_is_ignored_witness :
    (∀ signal_name : String,
        (DBus.notify signal_name ⟨false, true⟩).1 = false
        ∧ (stderrOf (DBus.notify signal_name ⟨false, true⟩).2).length = 1
        ∧ signalsOf (DBus.notify signal_name ⟨false, true⟩).2 = []
        ∧ quitRequest (DBus.notify signal_name ⟨false, true⟩).2 = none)
    ∧ pa_mainloop_run (readyObject true) (Event.sink_info (some sampleSink) ⟨false, true⟩ :: [Event.sigint])
        = ((DBus.notify "sinkChanged" ⟨false, true⟩).2
              ++ (pa_mainloop_run (readyObject true) [Event.sigint]).1,
           (pa_mainloop_run (readyObject true) [Event.sigint]).2)
    ∧ pa_mainloop_run (readyObject true)
          (Event.source_info (some sampleSource) ⟨false, true⟩ :: [Event.sigint])
        = ((DBus.notify "sourceChanged" ⟨false, true⟩).2
              ++ (pa_mainloop_run (readyObject true) [Event.sigint]).1,
           (pa_mainloop_run (readyObject true) [Event.sigint]).2) :=
  failed_notify_is_ignored (readyObject true) ⟨false, true⟩ sampleSink sampleSource
    [Event.sigint] rfl rfl (Or.inl rfl)

/-- Claim C3. For every argument vector whose first argument is `dbus`, `main` is the
call `PulseAudio::initialize(true)` on a fresh object followed, when that returns true,
by `run` on the initialised object (and by `return 1` otherwise); for every one whose
first argument is `stdout` it is the same with `PulseAudio::initialize(false)`. The flag
reaches the callbacks' userdata unchanged; in bus mode the bus connection is requested
once the five earlier steps succeed, and in console mode no bus connection is ever
requested. The comparison is on the whole string and case-sensitive: a first argument
that differs from both mode names in any character makes `main` call `usage` instead. -/
theorem main_selects_mode (name : String) (rest : List String) (env : Env) :
    (main name ("dbus" :: rest) env
      = if ( PulseAudio.initialize PulseAudio.ctor true env.init).1 = true then
          ⟨( PulseAudio.initialize PulseAudio.ctor true env.init).2.2
              ++ ( PulseAudio.run ( PulseAudio.initialize PulseAudio.ctor true env.init).2.1
                    env.events).effects,
            ( PulseAudio.run ( PulseAudio.initialize PulseAudio.ctor true env.init).2.1
                env.events).outcome⟩
        else ⟨( PulseAudio.initialize PulseAudio.ctor true env.init).2.2, Outcome.exit 1⟩)
    ∧ (main name ("stdout" :: rest) env
      = if ( PulseAudio.initialize PulseAudio.ctor false env.init).1 = true then
          ⟨( PulseAudio.initialize PulseAudio.ctor false env.init).2.2
              ++ ( PulseAudio.run ( PulseAudio.initialize PulseAudio.ctor false env.init).2.1
                    env.events).effects,
            ( PulseAudio.run ( PulseAudio.initialize PulseAudio.ctor false env.init).2.1
                env.events).outcome⟩
        else ⟨( PulseAudio.initialize PulseAudio.ctor false env.init).2.2, Outcome.exit 1⟩)
    ∧ (∀ b : Bool, ( PulseAudio.initialize PulseAudio.ctor b env.init).1 = true →
        ( PulseAudio.initialize PulseAudio.ctor b env.init).2.1._myuserdata.use_dbus = b)
    ∧ (env.init.mainloop_new = true → env.init.signal_init = 0 → env.init.signal_new = true →
        env.init.context_new = true → 0 ≤ env.init.context_connect →
        LibCall.dbus_bus_get ∈ callsOf (main name ("dbus" :: rest) env).effects)
    ∧ LibCall.dbus_bus_get ∉ callsOf (main name ("stdout" :: rest) env).effects
    ∧ (∀ a : String, NulFree a.data → a ≠ "dbus" → a ≠ "stdout" →
        main name (a :: rest) env = usage name) := by
  have hd0 : strcmp "dbus".data "dbus".data = 0 := strcmp_self _
  have hs1 : strcmp "stdout".data "dbus".data ≠ 0 := by decide
  have hs2 : strcmp "stdout".data "stdout".data = 0 := strcmp_self _
  have e1 : main name ("dbus" :: rest) env
      = if ( PulseAudio.initialize PulseAudio.ctor true env.init).1 = true then
          ⟨( PulseAudio.initialize PulseAudio.ctor true env.init).2.2
              ++ ( PulseAudio.run ( PulseAudio.initialize PulseAudio.ctor true env.init).2.1
                    env.events).effects,
            ( PulseAudio.run ( PulseAudio.initialize PulseAudio.ctor true env.init).2.1
                env.events).outcome⟩
        else ⟨( PulseAudio.initialize PulseAudio.ctor true env.init).2.2, Outcome.exit 1⟩ := by
    cases hr : ( PulseAudio.initialize PulseAudio.ctor true env.init).1 <;>
      simp [main, main_run, hd0, hr]
  have e2 : main name ("stdout" :: rest) env
      = if ( PulseAudio.initialize PulseAudio.ctor false env.init).1 = true then
          ⟨( PulseAudio.initialize PulseAudio.ctor false env.init).2.2
              ++ ( PulseAudio.run ( PulseAudio.initialize PulseAudio.ctor false env.init).2.1
                    env.events).effects,
            ( PulseAudio.run ( PulseAudio.initialize PulseAudio.ctor false env.init).2.1
                env.events).outcome⟩
        else ⟨( PulseAudio.initialize PulseAudio.ctor false env.init).2.2, Outcome.exit 1⟩ := by
    cases hr : ( PulseAudio.initialize PulseAudio.ctor false env.init).1 <;>
      simp [main, main_run, hs1, hs2, hr]
  refine ⟨e1, e2, ?_, ?_, ?_, ?_⟩
  · intro b hb
    rw [(initialize_ok_state b env.init hb).1]
  · intro h1 h2 h3 h4 h5
    have hin := bus_get_in_initialize env.init h1 h2 h3 h4 h5
    rw [e1]
    split_ifs
    · simp only [callsOf_append, List.mem_append]
      exact Or.inl hin
    · exact hin
  · have hno := (initialize_console_no_bus env.init).1
    rw [e2]
    split_ifs
    · simp only [callsOf_append, List.mem_append, not_or]
      exact ⟨hno, bus_get_not_in_run _ _⟩
    · exact hno
  · intro a ha h1 h2
    have hd : NulFree "dbus".data := by unfold NulFree; decide
    have hs : NulFree "stdout".data := by unfold NulFree; decide
    have n1 : strcmp a.data "dbus".data ≠ 0 := fun h =>
      h1 (String.ext ((strcmp_eq_zero_iff _ _ ha hd).1 h))
    have n2 : strcmp a.data "stdout".data ≠ 0 := fun h =>
      h2 (String.ext ((strcmp_eq_zero_iff _ _ ha hs).1 h))
    simp [main, n1, n2]

/-- Claim C3 on concrete command lines: `pvm dbus` with every library call succeeding
registers userdata with `use_dbus = true` and requests the bus connection, `pvm stdout`
registers `use_dbus = false`, and first arguments that differ from a mode name only in
case, or only by a trailing character, lead to `usage`. -/
theorem main_selects_mode_witness :
    ( PulseAudio.initialize PulseAudio.ctor true allGood).2.1._myuserdata.use_dbus = true
    ∧ ( PulseAudio.initialize PulseAudio.ctor false allGood).2.1._myuserdata.use_dbus = false
    ∧ LibCall.dbus_bus_get ∈ callsOf (main "pvm" ["dbus"] ⟨allGood, busEvents⟩).effects
    ∧ LibCall.dbus_bus_get ∉ callsOf (main "pvm" ["stdout"] ⟨allGood, busEvents⟩).effects
    ∧ main "pvm" ["DBUS"] ⟨allGood, busEvents⟩ = usage "pvm"
    ∧ main "pvm" ["stdout "] ⟨allGood, busEvents⟩ = usage "pvm" :=
  ⟨(main_selects_mode "pvm" [] ⟨allGood, busEvents⟩).2.2.1 true rfl,
   (main_selects_mode "pvm" [] ⟨allGood, busEvents⟩).2.2.1 false rfl,
   (main_selects_mode "pvm" [] ⟨allGood, busEvents⟩).2.2.2.1 rfl rfl rfl rfl (by decide),
   (main_selects_mode "pvm" [] ⟨allGood, busEvents⟩).2.2.2.2.1,
   (main_selects_mode "pvm" [] ⟨allGood, busEvents⟩).2.2.2.2.2 "DBUS"
      (by unfold NulFree; decide) (by decide) (by decide),
   (main_selects_mode "pvm" [] ⟨allGood, busEvents⟩).2.2.2.2.2 "stdout "
      (by unfold NulFree; decide) (by decide) (by decide)⟩

/-- Claim C4, as stated, fails: with an argument after the mode (`pvm dbus extra`)
the program does not print the usage text; it connects to the audio server and the
bus, runs the main loop and here ends with status 0 on `SIGINT`. -/
theorem extra_argument_is_accepted :
    (main "pvm" ["dbus", "extra"] ⟨allGood, [Event.sigint]⟩).outcome = Outcome.exit 0
    ∧ stderrOf (main "pvm" ["dbus", "extra"] ⟨allGood, [Event.sigint]⟩).effects = []
    ∧ LibCall.pa_context_connect
        ∈ callsOf (main "pvm" ["dbus", "extra"] ⟨allGood, [Event.sigint]⟩).effects
    ∧ LibCall.dbus_bus_get
        ∈ callsOf (main "pvm" ["dbus", "extra"] ⟨allGood, [Event.sigint]⟩).effects := by
  refine ⟨rfl, rfl, ?_, ?_⟩ <;> decide

/-- Claim C4, amended. For every command line with no argument, or whose first argument
differs from both `dbus` and `stdout`, the program prints the usage text on standard
error and exits with status 1; it makes no library call, so no audio-server or bus
connection is attempted, and it never reads a missing `argv[1]` (that read would be a
fault, and the outcome is an exit). Arguments after the first are not looked at. -/
theorem main_usage_on_bad_arguments (name : String) (args : List String) (env : Env)
    (h : args = [] ∨ ∃ a rest, args = a :: rest ∧ NulFree a.data ∧ a ≠ "dbus" ∧ a ≠ "stdout") :
    main name args env
        = ⟨[Effect.err ("Usage:\n" ++ name ++ " dbus\n" ++ name ++ " stdout\n")], Outcome.exit 1⟩
    ∧ callsOf (main name args env).effects = []
    ∧ (∀ a more, main name (a :: more) env = main name [a] env) := by
  have hmain : main name args env = usage name := by
    rcases h with rfl | ⟨a, rest, rfl, ha, h1, h2⟩
    · rfl
    · have hd : NulFree "dbus".data := by unfold NulFree; decide
      have hs : NulFree "stdout".data := by unfold NulFree; decide
      have e1 : strcmp a.data "dbus".data ≠ 0 := fun h =>
        h1 (String.ext ((strcmp_eq_zero_iff _ _ ha hd).1 h))
      have e2 : strcmp a.data "stdout".data ≠ 0 := fun h =>
        h2 (String.ext ((strcmp_eq_zero_iff _ _ ha hs).1 h))
      simp [main, e1, e2]
  refine ⟨hmain, ?_, ?_⟩
  · rw [hmain]; rfl
  · intro a more
    simp [main]

/-- Claim C4, amended, applied to the command line with no argument and to one with
an unknown first argument. -/
theorem main_usage_on_bad_arguments_witness :
    (main "pvm" [] ⟨allGood, [Event.sigint]⟩
        = ⟨[Effect.err ("Usage:\n" ++ "pvm" ++ " dbus\n" ++ "pvm" ++ " stdout\n")], Outcome.exit 1⟩
      ∧ callsOf (main "pvm" [] ⟨allGood, [Event.sigint]⟩).effects = []
      ∧ (∀ a more, main "pvm" (a :: more) ⟨allGood, [Event.sigint]⟩
            = main "pvm" [a] ⟨allGood, [Event.sigint]⟩))
    ∧ (main "pvm" ["-h", "dbus"] ⟨allGood, [Event.sigint]⟩
        = ⟨[Effect.err ("Usage:\n" ++ "pvm" ++ " dbus\n" ++ "pvm" ++ " stdout\n")], Outcome.exit 1⟩
      ∧ callsOf (main "pvm" ["-h", "dbus"] ⟨allGood, [Event.sigint]⟩).effects = []
      ∧ (∀ a more, main "pvm" (a :: more) ⟨allGood, [Event.sigint]⟩
            = main "pvm" [a] ⟨allGood, [Event.sigint]⟩)) :=
  ⟨main_usage_on_bad_arguments "pvm" [] ⟨allGood, [Event.sigint]⟩ (Or.inl rfl),
   main_usage_on_bad_arguments "pvm" ["-h", "dbus"] ⟨allGood, [Event.sigint]⟩
     (Or.inr ⟨"-h", ["dbus"], rfl, by unfold NulFree; decide, by decide, by decide⟩)⟩

/-- Claim C6. For every combination of outcomes of the library calls of
`PulseAudio::initialize`: it returns true exactly when main-loop creation, signal
initialisation, handler registration, context creation, context connect and, in bus
mode, `DBus::initialize` all succeed; the steps it starts are those up to and including
the first that fails; when it returns false `main` exits with status 1 without running
the main loop or registering the state callback; and in console mode no bus call is
made and the bus outcomes have no influence. -/
theorem initialize_all_or_nothing (use_dbus : Bool) (o : InitOutcomes) (events : List Event) :
    (( PulseAudio.initialize PulseAudio.ctor use_dbus o).1 = true ↔
        o.mainloop_new = true ∧ o.signal_init = 0 ∧ o.signal_new = true ∧ o.context_new = true
          ∧ 0 ≤ o.context_connect ∧ (use_dbus = true → ( DBus.initialize o.dbus).1 = true))
    ∧ (( PulseAudio.initialize PulseAudio.ctor use_dbus o).1 = true ↔
        ∀ st ∈ initSteps use_dbus o, st.2 = true)
    ∧ (callsOf ( PulseAudio.initialize PulseAudio.ctor use_dbus o).2.2).filter isStepCall
        = startedSteps (initSteps use_dbus o)
    ∧ (( PulseAudio.initialize PulseAudio.ctor use_dbus o).1 = false →
        main_run use_dbus ⟨o, events⟩
            = ⟨( PulseAudio.initialize PulseAudio.ctor use_dbus o).2.2, Outcome.exit 1⟩
        ∧ LibCall.pa_mainloop_run ∉ callsOf (main_run use_dbus ⟨o, events⟩).effects
        ∧ LibCall.pa_context_set_state_callback
            ∉ callsOf (main_run use_dbus ⟨o, events⟩).effects)
    ∧ (use_dbus = false →
        LibCall.dbus_bus_get ∉ callsOf ( PulseAudio.initialize PulseAudio.ctor use_dbus o).2.2
        ∧ ∀ d : DBusOutcomes,
            PulseAudio.initialize PulseAudio.ctor use_dbus { o with dbus := d }
              = PulseAudio.initialize PulseAudio.ctor use_dbus o) := by
  refine ⟨initialize_true_iff use_dbus o, initialize_true_iff_steps use_dbus o,
    initialize_started_steps use_dbus o, ?_, ?_⟩
  · intro hf
    have hrun : main_run use_dbus ⟨o, events⟩
        = ⟨( PulseAudio.initialize PulseAudio.ctor use_dbus o).2.2, Outcome.exit 1⟩ := by
      simp [main_run, hf]
    rw [hrun]
    exact ⟨rfl, initialize_false_calls use_dbus o hf⟩
  · intro hu
    subst hu
    exact initialize_console_no_bus o

/-- Claim C6 at concrete outcomes: bus mode with a bus connection that cannot be
obtained, and console mode with the same outcomes. -/
theorem initialize_all_or_nothing_witness :
    (main_run true ⟨{ allGood with dbus := ⟨false, some "no bus", none⟩ }, sampleEvents⟩
        = ⟨( PulseAudio.initialize PulseAudio.ctor true
              { allGood with dbus := ⟨false, some "no bus", none⟩ }).2.2, Outcome.exit 1⟩
      ∧ LibCall.pa_mainloop_run ∉ callsOf (main_run true
          ⟨{ allGood with dbus := ⟨false, some "no bus", none⟩ }, sampleEvents⟩).effects
      ∧ LibCall.pa_context_set_state_callback ∉ callsOf (main_run true
          ⟨{ allGood with dbus := ⟨false, some "no bus", none⟩ }, sampleEvents⟩).effects)
    ∧ (LibCall.dbus_bus_get ∉ callsOf ( PulseAudio.initialize PulseAudio.ctor false
          { allGood with dbus := ⟨false, some "no bus", none⟩ }).2.2
      ∧ ∀ d : DBusOutcomes,
          PulseAudio.initialize PulseAudio.ctor false
              { ({ allGood with dbus := ⟨false, some "no bus", none⟩ } : InitOutcomes)
                  with dbus := d }
            = PulseAudio.initialize PulseAudio.ctor false
                { allGood with dbus := ⟨false, some "no bus", none⟩ }) :=
  ⟨(initialize_all_or_nothing true { allGood with dbus := ⟨false, some "no bus", none⟩ }
      sampleEvents).2.2.2.1 rfl,
   (initialize_all_or_nothing false { allGood with dbus := ⟨false, some "no bus", none⟩ }
      sampleEvents).2.2.2.2 rfl⟩

/-- Claim C2. Every signal queued by `sink_info_callback` has object path
`/com/ch1p/Object`, interface `com.ch1p.pvm`, member `sinkChanged` and no argument;
every signal queued by `source_info_callback` is the same with member `sourceChanged`;
and every signal queued in any run of the whole program, for any command line, library
outcomes and events, has that path and interface, no argument, and one of these two
member names. -/
theorem bus_signals_shape (name : String) (args : List String) (env : Env) :
    (∀ (i : Option pa_sink_info) (ud : pa_myuserdata) (o : NotifyOutcomes) (effs : List Effect),
        PulseAudio.sink_info_callback i ud o = Except.ok effs →
        ∀ s ∈ signalsOf effs, s = ⟨"/com/ch1p/Object", "com.ch1p.pvm", "sinkChanged", []⟩)
    ∧ (∀ (i : Option pa_source_info) (ud : pa_myuserdata) (o : NotifyOutcomes)
        (effs : List Effect),
        PulseAudio.source_info_callback i ud o = Except.ok effs →
        ∀ s ∈ signalsOf effs, s = ⟨"/com/ch1p/Object", "com.ch1p.pvm", "sourceChanged", []⟩)
    ∧ (∀ s ∈ signalsOf (main name args env).effects,
        s.path = "/com/ch1p/Object" ∧ s.iface = "com.ch1p.pvm" ∧ s.args = []
        ∧ (s.member = "sinkChanged" ∨ s.member = "sourceChanged")) := by
  refine ⟨?_, ?_, ?_⟩
  · intro i ud o effs h s hs
    exact signalsOf_sink_info_callback i ud o effs h s hs
  · intro i ud o effs h s hs
    exact signalsOf_source_info_callback i ud o effs h s hs
  · intro s hs
    rcases signalsOf_main name args env s hs with h | h
    · subst h
      exact ⟨rfl, rfl, rfl, Or.inl rfl⟩
    · subst h
      exact ⟨rfl, rfl, rfl, Or.inr rfl⟩

/-- Claim C2 on a bus-mode run that queues both signals. -/
theorem bus_signals_shape_witness :
    signalsOf (main "pvm" ["dbus"] ⟨allGood, busEvents⟩).effects = [sinkChanged, sourceChanged]
    ∧ (sinkChanged.path = "/com/ch1p/Object" ∧ sinkChanged.iface = "com.ch1p.pvm"
        ∧ sinkChanged.args = []
        ∧ (sinkChanged.member = "sinkChanged" ∨ sinkChanged.member = "sourceChanged"))
    ∧ (∀ s ∈ signalsOf [Effect.signal sinkChanged],
        s = ⟨"/com/ch1p/Object", "com.ch1p.pvm", "sinkChanged", []⟩) :=
  ⟨rfl,
   (bus_signals_shape "pvm" ["dbus"] ⟨allGood, busEvents⟩).2.2 sinkChanged (by decide),
   fun s hs => (bus_signals_shape "pvm" ["dbus"] ⟨allGood, busEvents⟩).1 (some sampleSink)
     ⟨true, Ref.mainloopApi, Ref.dbus⟩ ⟨true, true⟩
     (( DBus.notify "sinkChanged" ⟨true, true⟩).2) rfl s (by simpa [DBus.notify, signalsOf, sinkChanged, DBUS_NAME] using hs)⟩

/-- Claim C7. In console mode, for every sink record with average channel volume `v`
and mute flag `m`, the text printed is `[sink  ] percent volume = P%`, then ` (muted)`
exactly when `m` is not zero, then the end of the line, where `P` is the text that
`%.0f` gives for `volume * 100.0f` with `volume = (float)v / (float)PA_VOLUME_NORM`;
the same holds for a source record with the tag `[source]`. `P` is `0` for `v = 0` and
`100` for `v = PA_VOLUME_NORM`. For every `v`, `P` is the decimal form of a natural
number within one half plus the fraction `2^-22` of `100 * v / PA_VOLUME_NORM`, and for
every `v` below `2^24 / 25` (more than ten times the normal volume) the float
computation is exact and `P` is an integer nearest to `100 * v / PA_VOLUME_NORM`. -/
theorem console_line_format (si : pa_sink_info) (so : pa_source_info) (ud : pa_myuserdata)
    (o : NotifyOutcomes) (hu : ud.use_dbus = false) :
    PulseAudio.sink_info_callback (some si) ud o
        = Except.ok [Effect.out ("[sink  ] percent volume = "
            ++ percent_text (pa_cvolume_avg si.volume)
            ++ "%" ++ (if si.mute ≠ 0 then " (muted)" else "") ++ "\n")]
    ∧ PulseAudio.source_info_callback (some so) ud o
        = Except.ok [Effect.out ("[source] percent volume = "
            ++ percent_text (pa_cvolume_avg so.volume)
            ++ "%" ++ (if so.mute ≠ 0 then " (muted)" else "") ++ "\n")]
    ∧ percent_text 0 = "0"
    ∧ percent_text PA_VOLUME_NORM = "100"
    ∧ (∀ v : ℕ, ∃ P : ℕ, percent_text v = toString P
        ∧ |(P : ℚ) - 100 * (v : ℚ) / (PA_VOLUME_NORM : ℚ)|
            ≤ 1 / 2 + 100 * (v : ℚ) / (PA_VOLUME_NORM : ℚ) / 2 ^ 22
        ∧ (25 * v < 2 ^ 24 →
            |(P : ℚ) - 100 * (v : ℚ) / (PA_VOLUME_NORM : ℚ)| ≤ 1 / 2)) := by
  refine ⟨?_, ?_, percent_text_zero, percent_text_norm, ?_⟩
  · unfold PulseAudio.sink_info_callback
    rw [hu]
    rfl
  · unfold PulseAudio.source_info_callback
    rw [hu]
    rfl
  · intro v
    obtain ⟨P, h1, h2, h3⟩ := percent_text_spec v
    have hn : ((PA_VOLUME_NORM : ℕ) : ℚ) = 65536 := by norm_num [PA_VOLUME_NORM]
    have h22 : ((2 : ℚ) ^ 22) = 4194304 := by norm_num
    rw [hn, h22]
    exact ⟨P, h1, h2, h3⟩

/-- Claim C7 on an unmuted sink at the normal volume and a muted source at half of
it. -/
theorem console_line_format_witness :
    PulseAudio.sink_info_callback (some sampleSink) ⟨false, Ref.mainloopApi, Ref.dbus⟩ ⟨true, true⟩
        = Except.ok [Effect.out "[sink  ] percent volume = 100%\n"]
    ∧ PulseAudio.source_info_callback (some sampleSource)
            ⟨false, Ref.mainloopApi, Ref.dbus⟩ ⟨true, true⟩
        = Except.ok [Effect.out "[source] percent volume = 50% (muted)\n"] := by
  have h := console_line_format sampleSink sampleSource ⟨false, Ref.mainloopApi, Ref.dbus⟩
    ⟨true, true⟩ rfl
  refine ⟨?_, ?_⟩
  · rw [h.1]
    have hv : pa_cvolume_avg sampleSink.volume = PA_VOLUME_NORM := by decide
    rw [hv, h.2.2.2.1]
    rfl
  · obtain ⟨P, h1, -, h2'⟩ := h.2.2.2.2 32768
    have h2 := h2' (by norm_num)
    have hn : ((PA_VOLUME_NORM : ℕ) : ℚ) = 65536 := by norm_num [PA_VOLUME_NORM]
    rw [hn, abs_le] at h2
    obtain ⟨ha, hb⟩ := h2
    norm_num at ha hb
    have h3 : (49 : ℚ) < (P : ℚ) := by linarith
    have h4 : (P : ℚ) < 51 := by linarith
    have h5 : 49 < P := by exact_mod_cast h3
    have h6 : P < 51 := by exact_mod_cast h4
    have hP : P = 50 := by omega
    subst hP
    rw [h.2.1]
    have hv : pa_cvolume_avg sampleSource.volume = 32768 := by decide
    rw [hv, h1]
    rfl

end PVM
